import Mathlib

/-!
# KSL: the Kinect gesture recorder (`Project_Kinect/code/kinectProgram.cpp`)

A shallow embedding of the recording pipeline of class `Kinect`:
the body selector `findClosestBody`, the hand smoothing `findLRHandPos` and `lerp`,
the hand-activation step of `updateBody`, the ROI step `extractHand`, and the
recording state machine `updateFrame` with its export call `save` and the directory
that call builds.

Conventions of the embedding.
* A C `float` value is the rational number it denotes (`ℚ`); every `float` operation
  of the activation and ROI steps is the exact operation followed by the rounding
  `Env.fl`, which the concrete examples instantiate with IEEE binary32
  round-to-nearest-even (`roundBinary32`). Infinities and NaN are not modelled.
* `int` is `Int`; the sums of line 300 wrap around at 32 bits (`wrapInt32`).
* `TIMESPAN` (a signed 64-bit tick count) is `Int`; `updateFrame` only copies and
  stores timestamps, it never does arithmetic on them.
* The object `Kinect` becomes a record of its member variables and every member
  function becomes a function from record to record.
* Effects that leave the process (`save` writing files, `put_TrackingId` on the face
  source) are kept as logs inside the record.
* Code that the translation unit only declares (the classes `Frame`, `ImageFrame`,
  `FrameCollection`, the constants of `defines.hpp`, the OpenCV and Kinect SDK calls)
  is either modelled from the specification, and marked so, or taken as a field of `Env`.
-/

namespace KSL

/-! ## Data model -/

/-- Kinect SDK `CameraSpacePoint`: three `float` coordinates in sensor space. -/
structure CameraSpacePoint where
  X : ℚ
  Y : ℚ
  Z : ℚ
deriving DecidableEq

/-- Kinect SDK `ColorSpacePoint`: two `float` coordinates in colour-image pixel space. -/
structure ColorSpacePoint where
  X : ℚ
  Y : ℚ
deriving DecidableEq

/-- The enumerators of `KINECT_MODE` that `kinectProgram.cpp` names. -/
inductive KINECT_MODE where
  | KINECT_MODE_IDLE
  | KINECT_MODE_PREDICT
  | KINECT_MODE_OUTPUT
deriving DecidableEq

/-- The landmark ids (`SPointsType`) that index the table `sPoints`, as named in
`updateSPoint` and `updateBody`. -/
inductive SPointsType where
  | SPOINT_HEAD_HAIR
  | SPOINT_HEAD_FACE_EYE_LEFT
  | SPOINT_HEAD_FACE_EYE_RIGHT
  | SPOINT_HEAD_FACE_NOSE
  | SPOINT_HEAD_FACE_LIP
  | SPOINT_HEAD_FACE_CHEEK_LEFT
  | SPOINT_HEAD_FACE_CHEEK_RIGHT
  | SPOINT_HEAD_FACE_JAW
  | SPOINT_BODY_NECK
  | SPOINT_BODY_SPINE_MID
  | SPOINT_BODY_SPINE_BASE
  | SPOINT_BODY_SPINE_SHOULDER
  | SPOINT_BODY_SHOULDER_LEFT
  | SPOINT_BODY_SHOULDER_RIGHT
  | SPOINT_BODY_ELBOW_LEFT
  | SPOINT_BODY_ELBOW_RIGHT
  | SPOINT_BODY_WRIST_LEFT
  | SPOINT_BODY_WRIST_RIGHT
  | SPOINT_BODY_HAND_TIP_LEFT
  | SPOINT_BODY_HAND_TIP_RIGHT
  | SPOINT_HEAD_TOP
  | SPOINT_HEAD_SIDE_LEFT
  | SPOINT_HEAD_SIDE_RIGHT
  | SPOINT_BODY_HIP_LEFT
  | SPOINT_BODY_HIP_RIGHT
  | SPOINT_BODY_KNEE_LEFT
  | SPOINT_BODY_KNEE_RIGHT
  | SPOINT_BODY_ANKLE_LEFT
  | SPOINT_BODY_ANKLE_RIGHT
  | SPOINT_BODY_HIP_SIDE_LEFT
  | SPOINT_BODY_HIP_SIDE_RIGHT
  | SPOINT_BODY_SHOULDER_SIDE_LEFT
  | SPOINT_BODY_SHOULDER_SIDE_RIGHT
  | SPOINT_BODY_KNEE_SIDE_LEFT
  | SPOINT_BODY_KNEE_SIDE_RIGHT
  | SPOINT_BODY_SPINE_MID_SIDE_LEFT
  | SPOINT_BODY_SPINE_MID_SIDE_RIGHT
deriving DecidableEq

/-- OpenCV `cv::Mat` as far as `extractHand` looks at it: the two dimensions and the
pixel payload (kept as an uninterpreted list of bytes). -/
structure Mat where
  rows : Int
  cols : Int
  data : List Nat
deriving DecidableEq

/-- OpenCV `cv::Rect`, that is `Rect_<int>`: integer corner and integer extent. -/
structure Rect where
  x : Int
  y : Int
  width : Int
  height : Int
deriving DecidableEq

/-- Kinect SDK `TrackingState` of a joint. -/
inductive TrackingState where
  | TrackingState_NotTracked
  | TrackingState_Inferred
  | TrackingState_Tracked
deriving DecidableEq

/-- Kinect SDK `JointType`: the 25 joints of a body (`JointType_Count` excluded). -/
inductive JointType where
  | JointType_SpineBase
  | JointType_SpineMid
  | JointType_Neck
  | JointType_Head
  | JointType_ShoulderLeft
  | JointType_ElbowLeft
  | JointType_WristLeft
  | JointType_HandLeft
  | JointType_ShoulderRight
  | JointType_ElbowRight
  | JointType_WristRight
  | JointType_HandRight
  | JointType_HipLeft
  | JointType_KneeLeft
  | JointType_AnkleLeft
  | JointType_FootLeft
  | JointType_HipRight
  | JointType_KneeRight
  | JointType_AnkleRight
  | JointType_FootRight
  | JointType_SpineShoulder
  | JointType_HandTipLeft
  | JointType_ThumbLeft
  | JointType_HandTipRight
  | JointType_ThumbRight
deriving DecidableEq

/-- Kinect SDK `Joint`, as far as the program reads it: position and tracking state. -/
structure Joint where
  Position : CameraSpacePoint
  TrackingState : TrackingState
deriving DecidableEq

/-- Kinect SDK `IBody`, as far as the program reads it: the results of `get_IsTracked`,
`GetJoints` and `get_TrackingId` (a `UINT64`, only ever compared and copied). -/
structure Body where
  IsTracked : Bool
  Joints : JointType → Joint
  TrackingId : Nat

/-- Modelled from the spec: class `Frame` (its header is not part of the sources).
One timestamped sample: capture time, both hand points, a copy of the landmark
table and both hand-activation booleans, the arguments of `Frame::memorize`. -/
structure Frame where
  lHandPos : CameraSpacePoint
  rHandPos : CameraSpacePoint
  sPoints : SPointsType → CameraSpacePoint
  leftHandActivated : Bool
  rightHandActivated : Bool
  time : Int

/-- Modelled from the spec: class `ImageFrame` (its header is not part of the sources).
One timestamped sample: capture time plus one hand crop, the arguments of
`ImageFrame::memorize`. -/
structure ImageFrame where
  image : Mat
  time : Int
deriving DecidableEq

/-- One call of `Kinect::save`, as seen from outside: its argument and the data it
serialises (label and the three collections at the moment of the call). -/
structure SaveCall where
  isSending : Bool
  label : Int
  frames : List Frame
  lhand : List ImageFrame
  rhand : List ImageFrame

/-- What `kinectProgram.cpp` uses but does not define.
* `FRAME_STANDARD_SIZE`, `IMAEG_STANDARD_FRAME_SIZE`: constants of `defines.hpp`.
* `frameSetStandard`, `lhandSetStandard`, `rhandSetStandard`: the effect of
  `FrameCollection::setStandard(recordStartTime)` on the sample sequence of the
  collection it is called on (one function per collection object; by §4.6 of the
  specification the resampling is driven by the capture times of the samples).
* `MapCameraPointToColorSpace`: the coordinate mapper of the Kinect SDK.
* `cropResize`: `srcMat(roi)` followed by `cv::resize` to `IMAGE_WIDTH × IMAGE_HEIGHT`;
  `none` when OpenCV raises an exception, as `cv::resize` does on an empty region.
* `fl`: the rounding of an exact result to `float`.
* `sqrt`: `std::sqrt` of the C++ library, on the idealised floats.
* `Lerp`, `LERP_PERCENT`: the interpolation helper and its blend factor, used by
  `Kinect::lerp`.
* `HAND_RECORD_TYPE_L`, `HAND_RECORD_TYPE_R`: the joints recorded as the two hands. -/
structure Env where
  FRAME_STANDARD_SIZE : Nat
  IMAEG_STANDARD_FRAME_SIZE : Nat
  frameSetStandard : Int → List Frame → List Frame
  lhandSetStandard : Int → List ImageFrame → List ImageFrame
  rhandSetStandard : Int → List ImageFrame → List ImageFrame
  MapCameraPointToColorSpace : CameraSpacePoint → ColorSpacePoint
  cropResize : Mat → Rect → Option Mat
  fl : ℚ → ℚ
  sqrt : ℚ → ℚ
  Lerp : ℚ → ℚ → ℚ → ℚ
  LERP_PERCENT : ℚ
  HAND_RECORD_TYPE_L : JointType
  HAND_RECORD_TYPE_R : JointType

/-- The member variables of class `Kinect` that the recording pipeline reads or writes.
Modelled from the spec: a `FrameCollection` is an ordered, insertion-time sequence of
samples, so each of the three collections is a list (`stackFrame` appends,
`clear` empties, `getCollectionSize` is the length). `saveLog` is the trace of
`save` calls made so far and `faceTrackingIds` the trace of the ids passed to
`put_TrackingId` of the face source so far. -/
structure Kinect where
  mode : KINECT_MODE
  label : Int
  trackingId : Nat
  trackingCount : Nat
  produced : Bool
  distance : ℚ
  faceTrackingIds : List Nat
  atLeastOneTracked : Bool
  leftHandActivated : Bool
  rightHandActivated : Bool
  lHandPos : CameraSpacePoint
  rHandPos : CameraSpacePoint
  sPoints : SPointsType → CameraSpacePoint
  spinePx : ℚ
  spinePxColorSpaceVersion : ℚ
  colorMat : Mat
  depthMat : Mat
  lHandImage : Mat
  rHandImage : Mat
  lastFrameRelativeTime : Int
  recordStartTime : Int
  frameStacking : Bool
  frameCollection : List Frame
  lhandCollection : List ImageFrame
  rhandCollection : List ImageFrame
  recorded : Int
  saveLog : List SaveCall

open KINECT_MODE SPointsType

/-! ## `Kinect::setMode` -/

/-- `Kinect::setMode` (lines 53-56). -/
def Kinect.setMode (m : KINECT_MODE) (s : Kinect) : Kinect :=
  { s with mode := m }

/-! ## `Kinect::save` and `Kinect::updateFrame` -/

/-- `Kinect::save` (lines 634-677), reduced to what the recording state machine can
observe: the call is appended to the trace with the data it writes out. -/
def Kinect.save (isSending : Bool) (s : Kinect) : Kinect :=
  { s with saveLog := s.saveLog ++
      [{ isSending := isSending, label := s.label, frames := s.frameCollection,
         lhand := s.lhandCollection, rhand := s.rhandCollection }] }

/-- The three `setStandard(recordStartTime)` calls of lines 548-550 and 572-574. -/
def Kinect.standardize (e : Env) (s : Kinect) : Kinect :=
  { s with
    frameCollection := e.frameSetStandard s.recordStartTime s.frameCollection
    rhandCollection := e.rhandSetStandard s.recordStartTime s.rhandCollection
    lhandCollection := e.lhandSetStandard s.recordStartTime s.lhandCollection }

/-- The success test of lines 552-554 and 576-578, as written in the source:
the skeleton collection and, twice, the right-hand collection. -/
def Kinect.standardSizeCheck (e : Env) (s : Kinect) : Bool :=
  decide (s.frameCollection.length = e.FRAME_STANDARD_SIZE) &&
  decide (s.rhandCollection.length = e.IMAEG_STANDARD_FRAME_SIZE) &&
  decide (s.rhandCollection.length = e.IMAEG_STANDARD_FRAME_SIZE)

/-- The `switch (mode)` of lines 544-590. -/
def Kinect.finalizeSession (e : Env) (s : Kinect) : Kinect :=
  match s.mode with
  | KINECT_MODE_PREDICT =>
      let s1 := s.standardize e
      if s1.standardSizeCheck e then
        let s2 := s1.save true
        { s2 with recorded := s2.recorded + 1 }
      else s1
  | KINECT_MODE_OUTPUT =>
      let s1 := s.standardize e
      if s1.standardSizeCheck e then
        let s2 := s1.save false
        { s2 with recorded := s2.recorded + 1 }
      else s1
  | KINECT_MODE_IDLE => s

/-- The minimum-length threshold `needStackedCnt` of line 539. -/
def needStackedCnt (m : KINECT_MODE) : Nat :=
  if m = KINECT_MODE_PREDICT then 18 else 35

/-- Lines 525-598 of `updateFrame`: the start/stop decision. -/
def Kinect.startStop (e : Env) (s : Kinect) : Kinect :=
  if !s.frameStacking then
    if s.leftHandActivated || s.rightHandActivated then
      { s with recordStartTime := s.lastFrameRelativeTime, frameStacking := true }
    else s
  else
    if s.frameStacking && (!s.leftHandActivated && !s.rightHandActivated) then
      let s1 :=
        if s.frameCollection.length > needStackedCnt s.mode then s.finalizeSession e else s
      { s1 with
        frameStacking := false
        frameCollection := []
        rhandCollection := []
        lhandCollection := [] }
    else s

/-- The `Frame` built by `f.memorize(...)` at line 605. -/
def Kinect.currentFrame (s : Kinect) : Frame :=
  { lHandPos := s.lHandPos, rHandPos := s.rHandPos, sPoints := s.sPoints,
    leftHandActivated := s.leftHandActivated, rightHandActivated := s.rightHandActivated,
    time := s.lastFrameRelativeTime }

/-- The `ImageFrame` built by `l.memorize(lHandImage, lastFrameRelativeTime)` at line 606. -/
def Kinect.currentLeftImage (s : Kinect) : ImageFrame :=
  { image := s.lHandImage, time := s.lastFrameRelativeTime }

/-- The `ImageFrame` built by `r.memorize(rHandImage, lastFrameRelativeTime)` at line 607. -/
def Kinect.currentRightImage (s : Kinect) : ImageFrame :=
  { image := s.rHandImage, time := s.lastFrameRelativeTime }

/-- Lines 600-612 of `updateFrame`: while stacking, push the current samples. -/
def Kinect.stack (s : Kinect) : Kinect :=
  if s.frameStacking then
    { s with
      frameCollection := s.frameCollection ++ [s.currentFrame]
      lhandCollection := s.lhandCollection ++ [s.currentLeftImage]
      rhandCollection := s.rhandCollection ++ [s.currentRightImage] }
  else s

/-- `Kinect::updateFrame` (lines 521-613). -/
def Kinect.updateFrame (e : Env) (s : Kinect) : Kinect :=
  if s.mode = KINECT_MODE_IDLE then s
  else (s.startStop e).stack

/-! ## The tick loop seen from `updateFrame` -/

/-- What the stages of `Kinect::update` that run before `updateFrame`
(`updateColor`, `updateBody`, `updateSPoint`, `updateROI`) hand over to it on one
tick: they write these members and none of the recording members
(`mode`, `frameStacking`, `recordStartTime`, the three collections, `recorded`). -/
structure TickInput where
  leftHandActivated : Bool
  rightHandActivated : Bool
  lHandPos : CameraSpacePoint
  rHandPos : CameraSpacePoint
  sPoints : SPointsType → CameraSpacePoint
  lHandImage : Mat
  rHandImage : Mat
  lastFrameRelativeTime : Int

/-- Store the values sensed on this tick into the members `updateFrame` reads. -/
def Kinect.sense (i : TickInput) (s : Kinect) : Kinect :=
  { s with
    leftHandActivated := i.leftHandActivated
    rightHandActivated := i.rightHandActivated
    lHandPos := i.lHandPos
    rHandPos := i.rHandPos
    sPoints := i.sPoints
    lHandImage := i.lHandImage
    rHandImage := i.rHandImage
    lastFrameRelativeTime := i.lastFrameRelativeTime }

/-- One tick of the recording state machine: sense, then `updateFrame`. -/
def Kinect.tick (e : Env) (s : Kinect) (i : TickInput) : Kinect :=
  (s.sense i).updateFrame e

/-- A run of ticks, oldest first. -/
def Kinect.run (e : Env) (s : Kinect) (is : List TickInput) : Kinect :=
  is.foldl (Kinect.tick e) s

/-- A tick on which at least one hand is active. -/
def TickInput.active (i : TickInput) : Bool :=
  i.leftHandActivated || i.rightHandActivated

/-! ## The hand-activation step of `Kinect::updateBody` -/

/-- Lines 370-383 of `updateBody`: both flags are recomputed from the landmark
table and `spinePx`. The threshold `sPoints[..].getPoint().Y + spinePx / 2` is a
`float` expression: the quotient and the sum are each rounded to `float`. -/
def Kinect.updateHandActivation (e : Env) (s : Kinect) : Kinect :=
  let s1 : Kinect :=
    if (s.sPoints SPOINT_BODY_WRIST_LEFT).Y >
        e.fl ((s.sPoints SPOINT_BODY_SPINE_BASE).Y + e.fl (s.spinePx / 2)) then
      { s with leftHandActivated := true }
    else { s with leftHandActivated := false }
  if (s1.sPoints SPOINT_BODY_WRIST_RIGHT).Y >
      e.fl ((s1.sPoints SPOINT_BODY_SPINE_BASE).Y + e.fl (s1.spinePx / 2)) then
    { s1 with rightHandActivated := true }
  else { s1 with rightHandActivated := false }

/-! ## `Kinect::extractHand` -/

/-- The smallest 32-bit `int`. -/
def INT_MIN : Int := -2 ^ 31

/-- The largest 32-bit `int`. -/
def INT_MAX : Int := 2 ^ 31 - 1

/-- The 32-bit two's-complement value of an `int` sum that may have overflowed. -/
def wrapInt32 (z : Int) : Int :=
  (z + 2 ^ 31) % 2 ^ 32 - 2 ^ 31

/-- The implicit C++ conversion `float → int`: truncation toward zero. A value whose
truncation is outside the range of `int` has no defined result in C++; it is given
`INT_MIN`, the result of the x86 conversion instruction. -/
def floatToInt (q : ℚ) : Int :=
  let t : Int := if 0 ≤ q then ⌊q⌋ else ⌈q⌉
  if INT_MIN ≤ t ∧ t ≤ INT_MAX then t else INT_MIN

/-- The `Rect roi(handPos.X - hWidth, handPos.Y - hHeight, width, height)` of line 298
for one hand, from the pixel scale `spinePx` read at line 276. Lines 283-286 and the
two differences are `float` arithmetic (`1.15f` is the `float` nearest to 1.15); the
four `float` arguments are converted to the `int` members of `cv::Rect`. -/
def handRoi (e : Env) (spinePx : ℚ) (camHandPos : CameraSpacePoint) : Rect :=
  let width := e.fl (spinePx * e.fl (115 / 100))
  let height := e.fl (spinePx * e.fl (115 / 100))
  let hWidth := e.fl (width / 2)
  let hHeight := e.fl (height / 2)
  let handPos := e.MapCameraPointToColorSpace camHandPos
  { x := floatToInt (e.fl (handPos.X - hWidth))
    y := floatToInt (e.fl (handPos.Y - hHeight))
    width := floatToInt width
    height := floatToInt height }

/-- The bounds test of line 300; the two sums are 32-bit `int` sums. -/
def roiInside (roi : Rect) (srcMat : Mat) : Bool :=
  decide (0 ≤ roi.x) && decide (0 ≤ roi.width) &&
  decide (wrapInt32 (roi.x + roi.width) ≤ srcMat.cols) &&
  decide (0 ≤ roi.y) && decide (0 ≤ roi.height) &&
  decide (wrapInt32 (roi.y + roi.height) ≤ srcMat.rows)

/-- The body of the loop of `extractHand` (lines 290-308) for one hand: the new value
of that hand's crop, or `none` when an OpenCV call raises. -/
def cropHand (e : Env) (srcMat : Mat) (spinePx : ℚ) (camHandPos : CameraSpacePoint)
    (handImage : Mat) : Option Mat :=
  let roi := handRoi e spinePx camHandPos
  if roiInside roi srcMat then e.cropResize srcMat roi else some handImage

/-- `Kinect::extractHand` (lines 267-310); the loop over the two hands is unrolled,
left hand (`i == 0`) first. The result is `none` when an OpenCV call raises an
exception, which `extractHand` does not catch. -/
def Kinect.extractHand (e : Env) (s : Kinect) : Option Kinect :=
  if !s.atLeastOneTracked then some s
  else if s.colorMat.rows = 0 then some s
  else if s.depthMat.rows = 0 then some s
  else
    let srcMat := s.colorMat
    let spinePx := s.spinePxColorSpaceVersion
    match cropHand e srcMat spinePx s.lHandPos s.lHandImage with
    | none => none
    | some l =>
      let s1 : Kinect := { s with lHandImage := l }
      match cropHand e srcMat spinePx s1.rHandPos s1.rHandImage with
      | none => none
      | some r => some { s1 with rHandImage := r }

open TrackingState JointType

/-- The largest finite `float`, `std::numeric_limits<float>::max()`:
`(2 - 2^(-23)) · 2^127`. -/
def FLT_MAX : ℚ := (2 ^ 24 - 1) * 2 ^ 104

/-- The head joint of a body (line 1140). -/
def Body.head (b : Body) : Joint :=
  b.Joints JointType_Head

/-- The distance of line 1147: `sqrt(x^2 + y^2 + z^2)` of the head position. -/
def headDistance (e : Env) (b : Body) : ℚ :=
  e.sqrt (b.head.Position.X ^ 2 + b.head.Position.Y ^ 2 + b.head.Position.Z ^ 2)

/-- The two guards of lines 1133 and 1141: the body is tracked and its head joint is
not `TrackingState_NotTracked`. -/
def Body.candidate (b : Body) : Bool :=
  b.IsTracked && decide (b.head.TrackingState ≠ TrackingState_NotTracked)

/-- One iteration of the loop of `findClosestBody` (lines 1130-1170) for the body at
index `count`; the local `closestDistance` is threaded next to the object. -/
def Kinect.findClosestBodyStep (e : Env) (count : Nat) (body : Body)
    (acc : ℚ × Kinect) : ℚ × Kinect :=
  let closestDistance := acc.1
  let s := acc.2
  if !body.IsTracked then acc
  else
    let joint := body.Joints JointType_Head
    if joint.TrackingState = TrackingState_NotTracked then acc
    else
      let point := joint.Position
      let distance := e.sqrt (point.X ^ 2 + point.Y ^ 2 + point.Z ^ 2)
      if closestDistance ≤ distance then acc
      else
        let s1 : Kinect := { s with atLeastOneTracked := true }
        let trackingId := body.TrackingId
        if s1.trackingId = trackingId then (distance, s1)
        else
          (distance,
            { s1 with
              faceTrackingIds := s1.faceTrackingIds ++ [trackingId]
              trackingId := trackingId
              trackingCount := count
              produced := false })

/-- The loop `for (count = ...; count < BODY_COUNT; count++)` over the bodies that are
still to be visited, the first of them at index `count`. -/
def Kinect.findClosestBodyLoop (e : Env) : Nat → List Body → ℚ × Kinect → ℚ × Kinect
  | _, [], acc => acc
  | count, body :: rest, acc =>
      Kinect.findClosestBodyLoop e (count + 1) rest (Kinect.findClosestBodyStep e count body acc)

/-- `Kinect::findClosestBody` (lines 1119-1174); `bodies` is the array of
`BODY_COUNT` bodies in index order. -/
def Kinect.findClosestBody (e : Env) (bodies : List Body) (s : Kinect) : Kinect :=
  let closestDistance := FLT_MAX
  let s0 : Kinect := { s with atLeastOneTracked := false }
  let r := Kinect.findClosestBodyLoop e 0 bodies (closestDistance, s0)
  if r.2.atLeastOneTracked then { r.2 with distance := r.1 } else r.2

/-- `Kinect::lerp` (lines 1228-1237). -/
def Kinect.lerp (e : Env) (src dst : CameraSpacePoint) : CameraSpacePoint :=
  { X := e.Lerp e.LERP_PERCENT src.X dst.X
    Y := e.Lerp e.LERP_PERCENT src.Y dst.Y
    Z := e.Lerp e.LERP_PERCENT src.Z dst.Z }

/-- `Kinect::findLRHandPos` (lines 1176-1191). Reading `bodies[trackingCount]` outside
the array has no defined result. -/
def Kinect.findLRHandPos (e : Env) (bodies : List Body) (s : Kinect) : Option Kinect :=
  match bodies[s.trackingCount]? with
  | none => none
  | some body =>
    let joint := body.Joints e.HAND_RECORD_TYPE_L
    if joint.TrackingState = TrackingState_NotTracked then some s
    else
      let s1 : Kinect := { s with lHandPos := Kinect.lerp e s.lHandPos joint.Position }
      let joint := body.Joints e.HAND_RECORD_TYPE_R
      if joint.TrackingState = TrackingState_NotTracked then some s1
      else some { s1 with rHandPos := Kinect.lerp e s1.rHandPos joint.Position }

/-- The loop invariant of `findClosestBody`: `done` are the bodies visited so far,
`acc` the local `closestDistance` and the object after them, `s0` the object when the
loop was entered. -/
structure SelInv (e : Env) (s0 : Kinect) (done : List Body) (acc : ℚ × Kinect) : Prop where
  le_max : acc.1 ≤ FLT_MAX
  lower : ∀ b ∈ done, b.candidate = true → acc.1 ≤ headDistance e b
  distance_eq : acc.2.distance = s0.distance
  none_yet : acc.2.atLeastOneTracked = false →
    acc.1 = FLT_MAX ∧ acc.2.trackingId = s0.trackingId ∧
    acc.2.trackingCount = s0.trackingCount ∧ acc.2.produced = s0.produced ∧
    acc.2.faceTrackingIds = s0.faceTrackingIds
  found : acc.2.atLeastOneTracked = true →
    acc.1 < FLT_MAX ∧
    ∃ (k : Nat) (b : Body), done[k]? = some b ∧ b.candidate = true ∧
      headDistance e b = acc.1 ∧
      (∀ (j : Nat) (b' : Body), j < k → done[j]? = some b' → b'.candidate = true →
        acc.1 < headDistance e b') ∧
      acc.2.trackingId = b.TrackingId
  log : ∃ l, acc.2.faceTrackingIds = s0.faceTrackingIds ++ l ∧
    ((l = [] ∧ acc.2.trackingId = s0.trackingId ∧
        acc.2.trackingCount = s0.trackingCount ∧ acc.2.produced = s0.produced) ∨
      (l.getLast? = some acc.2.trackingId ∧ acc.2.produced = false ∧
        ∃ b : Body, done[acc.2.trackingCount]? = some b ∧ b.candidate = true ∧
          b.TrackingId = acc.2.trackingId))

/-- The body that the loop of `findClosestBody` selects: the first one, in index
order, among the tracked bodies with a tracked head, whose head distance is minimal
(and below the initial `closestDistance`). -/
def selectedAt (e : Env) (bodies : List Body) (m : Nat) (b : Body) : Prop :=
  bodies[m]? = some b ∧ b.candidate = true ∧ headDistance e b < FLT_MAX ∧
  (∀ b' ∈ bodies, b'.candidate = true → headDistance e b ≤ headDistance e b') ∧
  (∀ (j : Nat) (b' : Body), j < m → bodies[j]? = some b' → b'.candidate = true →
    headDistance e b < headDistance e b')

/-- The tracking ids of the bodies that are tracked with a tracked head are pairwise
distinct. -/
def distinctCandidateIds (bodies : List Body) : Prop :=
  ∀ (i j : Nat) (bi bj : Body), bodies[i]? = some bi → bodies[j]? = some bj →
    bi.candidate = true → bj.candidate = true → bi.TrackingId = bj.TrackingId → i = j

/-- The stored pair `(trackingId, trackingCount)` is consistent with the array: a body
that is tracked with a tracked head and carries the stored id sits at index
`trackingCount`. -/
def storedPairConsistent (bodies : List Body) (s : Kinect) : Prop :=
  ∀ (i : Nat) (b : Body), bodies[i]? = some b → b.candidate = true →
    b.TrackingId = s.trackingId → s.trackingCount = i

/-! ## Sessions, events and timestamps -/

/-- Lines 593-596 of `updateFrame`: leave the stacking state and clear the three
collections. -/
def Kinect.endSession (s : Kinect) : Kinect :=
  { s with
    frameStacking := false
    frameCollection := []
    rhandCollection := []
    lhandCollection := [] }

/-- What can happen to the recorder between and on ticks: a caller switches the mode
with `setMode`, or a tick runs `updateFrame` on freshly sensed values. -/
inductive Event where
  | setMode (m : KINECT_MODE)
  | tick (i : TickInput)

/-- The effect of one event. -/
def Kinect.step (e : Env) (s : Kinect) : Event → Kinect
  | Event.setMode m => s.setMode m
  | Event.tick i => s.tick e i

/-- A history of events, oldest first. -/
def Kinect.runEvents (e : Env) (s : Kinect) (evs : List Event) : Kinect :=
  evs.foldl (Kinect.step e) s

/-- The capture times held in the skeleton collection, in insertion order. -/
def Kinect.frameTimes (s : Kinect) : List Int :=
  s.frameCollection.map (fun f => f.time)

/-- The capture times held in the left-hand collection, in insertion order. -/
def Kinect.lhandTimes (s : Kinect) : List Int :=
  s.lhandCollection.map (fun f => f.time)

/-- The capture times held in the right-hand collection, in insertion order. -/
def Kinect.rhandTimes (s : Kinect) : List Int :=
  s.rhandCollection.map (fun f => f.time)

/-- The timestamps of a run of ticks, oldest first. -/
def tickTimes (is : List TickInput) : List Int :=
  is.map (fun i => i.lastFrameRelativeTime)

/-! ## The export directory of `Kinect::save` -/

/-- The string `path` built by `Kinect::save` at lines 636-658, as a function of what
it is built from: the constant `PATH_DATA_FOLDER` of `defines.hpp`, the member `label`
(`to_string(label)` is its decimal rendering), the label name `LABEL(label)`, the
result of `currentDateTime()` and the member `workerName`. -/
def savePath (PATH_DATA_FOLDER : String) (label : Int)
    (labelName currentDateTime workerName : String) (isSending : Bool) : String :=
  if !isSending then
    let path := PATH_DATA_FOLDER
    let path := path ++ ("/" ++ toString label ++ "_" ++ labelName)
    let path := path ++ ("/" ++ currentDateTime ++ "_" ++ toString label ++ "_" ++ workerName)
    path ++ "/"
  else
    let path := PATH_DATA_FOLDER
    let path := path ++ "temp"
    path ++ "/"

/-- The persisted-mode directory in the words of the specification:
`root/<label_id>_<label_name>/<date>_<label_id>_<operator>/`. -/
def persistedDirectory (root : String) (label : Int)
    (labelName date operator : String) : String :=
  root ++ "/" ++ toString label ++ "_" ++ labelName ++ "/" ++
    date ++ "_" ++ toString label ++ "_" ++ operator ++ "/"

/-- The transient-mode directory in the words of the specification: `root/temp/`. -/
def transientDirectory (root : String) : String :=
  root ++ "/" ++ "temp" ++ "/"

/-! ## Concrete inputs used to exercise the model -/

/-- The sensor origin. -/
def origin : CameraSpacePoint := { X := 0, Y := 0, Z := 0 }

/-- An empty image. -/
def blankMat : Mat := { rows := 0, cols := 0, data := [] }

/-- A landmark table with every landmark at the origin. -/
def restPose : SPointsType → CameraSpacePoint := fun _ => origin

/-- IEEE 754 binary32 rounding of a rational number: to the nearest `float`, ties to
the even significand, with the subnormal grid below `2^(-126)`. Beyond the largest
finite `float` the grid of the last binade continues (no infinity). -/
def roundBinary32 (q : ℚ) : ℚ :=
  if q = 0 then 0
  else
    let a := |q|
    let ex : Int := max (Int.log 2 a) (-126)
    let ulp : ℚ := 2 ^ (ex - 23)
    let n := a / ulp
    let f : Int := ⌊n⌋
    let k : Int :=
      if n - f < 1 / 2 then f
      else if 1 / 2 < n - f then f + 1
      else if f % 2 = 0 then f else f + 1
    (if q < 0 then -1 else 1) * k * ulp

/-- An environment with both target lengths 35, in which standardisation keeps the
first 35 samples, the projection drops the depth coordinate and a crop records the
rectangle it was cut from (and fails on a rectangle of zero width or height); `float`
rounding is binary32; the square root is rounded down to a multiple of the
reciprocal of the denominator (exact on squares of integers), interpolation is
`src + a (dst - src)` with blend factor one half. -/
def sampleEnv : Env :=
  { FRAME_STANDARD_SIZE := 35
    IMAEG_STANDARD_FRAME_SIZE := 35
    frameSetStandard := fun _ l => l.take 35
    lhandSetStandard := fun _ l => l.take 35
    rhandSetStandard := fun _ l => l.take 35
    MapCameraPointToColorSpace := fun p => { X := p.X, Y := p.Y }
    cropResize := fun _ r =>
      if r.width = 0 ∨ r.height = 0 then none
      else some
        { rows := 28, cols := 28
          data := [r.x.toNat, r.y.toNat, r.width.toNat, r.height.toNat] }
    fl := roundBinary32
    sqrt := fun q => (Nat.sqrt (q.num.toNat * q.den) : ℚ) / q.den
    Lerp := fun a src dst => src + a * (dst - src)
    LERP_PERCENT := 1 / 2
    HAND_RECORD_TYPE_L := JointType.JointType_HandLeft
    HAND_RECORD_TYPE_R := JointType.JointType_HandRight }

/-- A freshly constructed recorder in mode `m`: idle, nothing collected, nothing exported. -/
def startKinect (m : KINECT_MODE) : Kinect :=
  { mode := m
    label := 0
    trackingId := 0
    trackingCount := 0
    produced := false
    distance := 0
    faceTrackingIds := []
    atLeastOneTracked := true
    leftHandActivated := false
    rightHandActivated := false
    lHandPos := origin
    rHandPos := origin
    sPoints := restPose
    spinePx := 0
    spinePxColorSpaceVersion := 0
    colorMat := blankMat
    depthMat := blankMat
    lHandImage := blankMat
    rHandImage := blankMat
    lastFrameRelativeTime := 0
    recordStartTime := 0
    frameStacking := false
    frameCollection := []
    lhandCollection := []
    rhandCollection := []
    recorded := 0
    saveLog := [] }

/-- A tick at time `t` with the right hand raised. -/
def handUp (t : Int) : TickInput :=
  { leftHandActivated := false
    rightHandActivated := true
    lHandPos := origin
    rHandPos := origin
    sPoints := restPose
    lHandImage := blankMat
    rHandImage := blankMat
    lastFrameRelativeTime := t }

/-- A tick at time `t` with both hands down. -/
def handsDown (t : Int) : TickInput :=
  { leftHandActivated := false
    rightHandActivated := false
    lHandPos := origin
    rHandPos := origin
    sPoints := restPose
    lHandImage := blankMat
    rHandImage := blankMat
    lastFrameRelativeTime := t }

/-- The episode of `n` ticks with a hand raised, at times `0, 1, ..., n - 1`. -/
def handUpFor (n : Nat) : List TickInput :=
  (List.range n).map (fun k => handUp (k : Int))

/-- A tick on which `findClosestBody` found no body while the landmark table still
shows the left wrist raised (wrist at height 1, spine base at 0, `spinePx = 1/2`);
Output mode, idle, both flags false from the tick before. -/
def lostBodyKinect : Kinect :=
  { startKinect KINECT_MODE_OUTPUT with
    atLeastOneTracked := false
    sPoints := fun p => if p = SPOINT_BODY_WRIST_LEFT then { X := 0, Y := 1, Z := 0 } else origin
    spinePx := 1 / 2 }

/-- A tick on which the left wrist is `2^(-27)` above the exact threshold: the spine
base is at `0.1f`, `spinePx` is `0.33f` and the left wrist at `8891925 · 2^(-25)`, all
three `float` values. -/
def roundedSumKinect : Kinect :=
  { startKinect KINECT_MODE_OUTPUT with
    atLeastOneTracked := true
    sPoints := fun p =>
      if p = SPOINT_BODY_WRIST_LEFT then { X := 0, Y := 8891925 / 2 ^ 25, Z := 0 }
      else if p = SPOINT_BODY_SPINE_BASE then { X := 0, Y := 13421773 / 2 ^ 27, Z := 0 }
      else origin
    spinePx := 11072963 / 2 ^ 25 }

/-- A tracked tick with a 100 × 100 colour image, a square of side 11.5
(`spinePxColorSpaceVersion = 10`) and the left hand projected to `(5.5, 50)`:
the square is `[-0.25, 11.25] × [44.25, 55.75]` and starts a quarter of a pixel left
of the image. -/
def edgeHandKinect : Kinect :=
  { startKinect KINECT_MODE_OUTPUT with
    colorMat := { rows := 100, cols := 100, data := [] }
    depthMat := { rows := 100, cols := 100, data := [] }
    spinePxColorSpaceVersion := 10
    lHandPos := { X := 11 / 2, Y := 50, Z := 1 }
    rHandPos := { X := 50, Y := 50, Z := 1 } }

/-- A body all of whose joints sit on the sensor axis at depth `z` with tracking state
`headState`; its head distance is `z`. -/
def sampleBody (tracked : Bool) (headState : TrackingState) (z : Nat) (id : Nat) : Body :=
  { IsTracked := tracked
    Joints := fun _ =>
      { Position := { X := 0, Y := 0, Z := (z : ℚ) }, TrackingState := headState }
    TrackingId := id }

/-- A tracked body whose left and right hand joints have the given tracking states and
sit at `(1, 1, 1)` and `(2, 2, 2)`; every other joint is tracked at the origin. -/
def handsBody (l r : TrackingState) : Body :=
  { IsTracked := true
    Joints := fun j =>
      if j = JointType_HandLeft then
        { Position := { X := 1, Y := 1, Z := 1 }, TrackingState := l }
      else if j = JointType_HandRight then
        { Position := { X := 2, Y := 2, Z := 2 }, TrackingState := r }
      else { Position := origin, TrackingState := TrackingState_Tracked }
    TrackingId := 1 }

/-- Two tracked bodies: the nearer one (depth 1, id 5) has a head joint that is not
tracked, the farther one (depth 2, id 7) has a tracked head. -/
def hiddenHeadBodies : List Body :=
  [sampleBody true TrackingState_NotTracked 1 5, sampleBody true TrackingState_Tracked 2 7]

/-- Two tracked bodies with tracked heads at the same depth 2, ids 7 and 9. -/
def tiedBodies : List Body :=
  [sampleBody true TrackingState_Tracked 2 7, sampleBody true TrackingState_Tracked 2 9]

/-- The recorder after a tick that selected the body with id 9 at index 1. -/
def trackingSecond : Kinect :=
  { startKinect KINECT_MODE_OUTPUT with trackingId := 9, trackingCount := 1, produced := true }

/-- One tracked body whose head joint is not tracked. -/
def hiddenHeadOnly : List Body :=
  [sampleBody true TrackingState_NotTracked 1 5]

/-! ## Auxiliary facts -/

/-- A tick with an active hand, in a recording mode: the machine is stacking
afterwards, each collection is one sample longer, nothing is exported. -/
theorem tick_active_step (e : Env) (s : Kinect) (i : TickInput)
    (hm : s.mode ≠ KINECT_MODE_IDLE) (ha : i.active = true) :
    (s.tick e i).mode = s.mode ∧ (s.tick e i).frameStacking = true ∧
    (s.tick e i).frameCollection.length = s.frameCollection.length + 1 ∧
    (s.tick e i).lhandCollection.length = s.lhandCollection.length + 1 ∧
    (s.tick e i).rhandCollection.length = s.rhandCollection.length + 1 ∧
    (s.tick e i).saveLog = s.saveLog ∧ (s.tick e i).recorded = s.recorded ∧
    (s.tick e i).label = s.label := by
  unfold TickInput.active at ha
  cases hs : s.frameStacking <;> cases hl : i.leftHandActivated <;>
    cases hr : i.rightHandActivated <;>
    simp_all [Kinect.tick, Kinect.sense, Kinect.updateFrame, Kinect.startStop, Kinect.stack]

/-- A run of ticks that all have an active hand, in a recording mode. -/
theorem run_active_steps (e : Env) (is : List TickInput) :
    ∀ s : Kinect, s.mode ≠ KINECT_MODE_IDLE → (∀ i ∈ is, i.active = true) →
    (s.run e is).mode = s.mode ∧
    (s.run e is).frameStacking = (if is.isEmpty then s.frameStacking else true) ∧
    (s.run e is).frameCollection.length = s.frameCollection.length + is.length ∧
    (s.run e is).lhandCollection.length = s.lhandCollection.length + is.length ∧
    (s.run e is).rhandCollection.length = s.rhandCollection.length + is.length ∧
    (s.run e is).saveLog = s.saveLog ∧ (s.run e is).recorded = s.recorded ∧
    (s.run e is).label = s.label := by
  induction is with
  | nil => intro s _ _; simp [Kinect.run]
  | cons i rest ih =>
    intro s hm hall
    have hi : i.active = true := hall i (List.mem_cons_self _ _)
    obtain ⟨h1, h2, h3, h4, h5, h6, h7, h8⟩ := tick_active_step e s i hm hi
    have hm1 : (s.tick e i).mode ≠ KINECT_MODE_IDLE := by rw [h1]; exact hm
    obtain ⟨r1, r2, r3, r4, r5, r6, r7, r8⟩ :=
      ih (s.tick e i) hm1 (fun j hj => hall j (List.mem_cons_of_mem _ hj))
    have hrun : s.run e (i :: rest) = (s.tick e i).run e rest := by
      simp [Kinect.run]
    rw [hrun]
    refine ⟨by rw [r1, h1], ?_, by rw [r3, h3]; simp; omega, by rw [r4, h4]; simp; omega,
      by rw [r5, h5]; simp; omega, by rw [r6, h6], by rw [r7, h7], by rw [r8, h8]⟩
    rw [r2, h2]; simp

/-- A tick with both hands inactive, in a recording mode, on a session that is not
longer than the threshold: the session is dropped without export. -/
theorem tick_inactive_short (e : Env) (s : Kinect) (i : TickInput)
    (hm : s.mode ≠ KINECT_MODE_IDLE) (hi : i.active = false)
    (hlen : s.frameCollection.length ≤ needStackedCnt s.mode) :
    (s.tick e i).frameStacking = false ∧
    (s.tick e i).frameCollection = (if s.frameStacking then [] else s.frameCollection) ∧
    (s.tick e i).lhandCollection = (if s.frameStacking then [] else s.lhandCollection) ∧
    (s.tick e i).rhandCollection = (if s.frameStacking then [] else s.rhandCollection) ∧
    (s.tick e i).saveLog = s.saveLog ∧ (s.tick e i).recorded = s.recorded := by
  unfold TickInput.active at hi
  have hnot : ¬ (needStackedCnt s.mode < s.frameCollection.length) := by omega
  cases hs : s.frameStacking <;> cases hl : i.leftHandActivated <;>
    cases hr : i.rightHandActivated <;>
    simp [hl, hr] at hi <;>
    simp [Kinect.tick, Kinect.sense, Kinect.updateFrame, Kinect.startStop, Kinect.stack,
      hm, hs, hl, hr, hnot]

/-- A tick with both hands inactive in Output mode on a session longer than 35 whose
skeleton and right-hand collections standardise to their targets: one `save(false)`
of the standardised collections, the counter goes up by one, the machine is idle and
the collections are empty. -/
theorem tick_inactive_export_output (e : Env) (s : Kinect) (i : TickInput)
    (hm : s.mode = KINECT_MODE_OUTPUT) (hs : s.frameStacking = true)
    (hi : i.active = false) (hlen : 35 < s.frameCollection.length)
    (hstdF : (e.frameSetStandard s.recordStartTime s.frameCollection).length =
      e.FRAME_STANDARD_SIZE)
    (hstdR : (e.rhandSetStandard s.recordStartTime s.rhandCollection).length =
      e.IMAEG_STANDARD_FRAME_SIZE) :
    (s.tick e i).saveLog = s.saveLog ++
      [{ isSending := false, label := s.label,
         frames := e.frameSetStandard s.recordStartTime s.frameCollection,
         lhand := e.lhandSetStandard s.recordStartTime s.lhandCollection,
         rhand := e.rhandSetStandard s.recordStartTime s.rhandCollection }] ∧
    (s.tick e i).recorded = s.recorded + 1 ∧
    (s.tick e i).frameStacking = false ∧
    (s.tick e i).frameCollection = [] ∧
    (s.tick e i).lhandCollection = [] ∧
    (s.tick e i).rhandCollection = [] := by
  unfold TickInput.active at hi
  rw [Bool.or_eq_false_iff] at hi
  obtain ⟨hl, hr⟩ := hi
  simp [Kinect.tick, Kinect.sense, Kinect.updateFrame, Kinect.startStop, Kinect.stack,
    Kinect.finalizeSession, Kinect.standardize, Kinect.standardSizeCheck, Kinect.save,
    needStackedCnt, hm, hs, hl, hr, hlen, hstdF, hstdR]

theorem run_snoc (e : Env) (s : Kinect) (is : List TickInput) (i : TickInput) :
    s.run e (is ++ [i]) = (s.run e is).tick e i := by
  simp [Kinect.run, List.foldl_append]

theorem handUpFor_active (n : Nat) : ∀ i ∈ handUpFor n, i.active = true := by
  intro i hi
  simp only [handUpFor, List.mem_map] at hi
  obtain ⟨k, _, rfl⟩ := hi
  rfl

/-- The left flag after the activation step, as a decision of the threshold test. -/
theorem updateHandActivation_left (e : Env) (u : Kinect) :
    (u.updateHandActivation e).leftHandActivated =
      decide ((u.sPoints SPOINT_BODY_WRIST_LEFT).Y >
        e.fl ((u.sPoints SPOINT_BODY_SPINE_BASE).Y + e.fl (u.spinePx / 2))) := by
  unfold Kinect.updateHandActivation
  by_cases h1 : (u.sPoints SPOINT_BODY_WRIST_LEFT).Y >
      e.fl ((u.sPoints SPOINT_BODY_SPINE_BASE).Y + e.fl (u.spinePx / 2)) <;>
    by_cases h2 : (u.sPoints SPOINT_BODY_WRIST_RIGHT).Y >
      e.fl ((u.sPoints SPOINT_BODY_SPINE_BASE).Y + e.fl (u.spinePx / 2)) <;>
    simp [h1, h2]

/-- The right flag after the activation step, as a decision of the threshold test. -/
theorem updateHandActivation_right (e : Env) (u : Kinect) :
    (u.updateHandActivation e).rightHandActivated =
      decide ((u.sPoints SPOINT_BODY_WRIST_RIGHT).Y >
        e.fl ((u.sPoints SPOINT_BODY_SPINE_BASE).Y + e.fl (u.spinePx / 2))) := by
  unfold Kinect.updateHandActivation
  by_cases h1 : (u.sPoints SPOINT_BODY_WRIST_LEFT).Y >
      e.fl ((u.sPoints SPOINT_BODY_SPINE_BASE).Y + e.fl (u.spinePx / 2)) <;>
    by_cases h2 : (u.sPoints SPOINT_BODY_WRIST_RIGHT).Y >
      e.fl ((u.sPoints SPOINT_BODY_SPINE_BASE).Y + e.fl (u.spinePx / 2)) <;>
    simp [h1, h2]

/-- The result of `updateFrame` does not depend on `atLeastOneTracked`, which it only
carries along. -/
theorem updateFrame_ignores_tracking (e : Env) (s : Kinect) (b : Bool) :
    ({ s with atLeastOneTracked := b } : Kinect).updateFrame e =
      { s.updateFrame e with atLeastOneTracked := b } := by
  cases hm : s.mode <;> cases hs : s.frameStacking <;> cases hl : s.leftHandActivated <;>
    cases hr : s.rightHandActivated <;>
    simp [Kinect.updateFrame, Kinect.startStop, Kinect.stack, Kinect.finalizeSession,
      Kinect.standardize, Kinect.standardSizeCheck, Kinect.save, Kinect.currentFrame,
      Kinect.currentLeftImage, Kinect.currentRightImage, needStackedCnt, hm, hs, hl, hr] <;>
    split_ifs <;> simp [hm, hl, hr]

/-- The activation step on `lostBodyKinect` raises the left flag and changes
nothing else. -/
theorem lostBody_activation :
    lostBodyKinect.updateHandActivation sampleEnv =
      { lostBodyKinect with leftHandActivated := true } := by
  have h1 : (lostBodyKinect.sPoints SPOINT_BODY_WRIST_LEFT).Y >
      sampleEnv.fl ((lostBodyKinect.sPoints SPOINT_BODY_SPINE_BASE).Y +
        sampleEnv.fl (lostBodyKinect.spinePx / 2)) := by
    decide!
  have h2 : ¬ ((lostBodyKinect.sPoints SPOINT_BODY_WRIST_RIGHT).Y >
      sampleEnv.fl ((lostBodyKinect.sPoints SPOINT_BODY_SPINE_BASE).Y +
        sampleEnv.fl (lostBodyKinect.spinePx / 2))) := by
    decide!
  unfold Kinect.updateHandActivation
  simp only [h1, h2, if_true, if_false]
  rfl

/-- Values of binary32 rounding: `0.1f`, `0.33f`, `1.15f`, and two products with
`1.15f`. -/
theorem roundBinary32_values :
    roundBinary32 (1 / 10) = 13421773 / 2 ^ 27 ∧
    roundBinary32 (33 / 100) = 11072963 / 2 ^ 25 ∧
    roundBinary32 (115 / 100) = 9646899 / 2 ^ 23 ∧
    roundBinary32 (10 * roundBinary32 (115 / 100)) = 23 / 2 ∧
    roundBinary32 (2279513 / 2 ^ 18 * roundBinary32 (115 / 100)) = 10 := by
  decide!

/-- Values of the integer conversions: a pixel scale whose `float` product with
`1.15f` rounds up to 10 gives the rectangle `(91, 45, 10, 10)`, which fails the test
on a 100 × 100 image; a 32-bit sum past `INT_MAX` wraps to a negative number; a
`float` beyond the range of `int` converts to `INT_MIN`; `-0.25` converts to 0. -/
theorem handRoi_values :
    handRoi sampleEnv (2279513 / 2 ^ 18) { X := 96, Y := 50, Z := 1 } =
      { x := 91, y := 45, width := 10, height := 10 } ∧
    roiInside { x := 91, y := 45, width := 10, height := 10 }
      { rows := 100, cols := 100, data := [] } = false ∧
    wrapInt32 (2147483520 + 200) = -2147483576 ∧
    floatToInt (2 ^ 31) = INT_MIN ∧
    floatToInt (-(1 / 4)) = 0 := by
  decide!

/-- The rectangle of the left hand of `edgeHandKinect`: the side `11.5` is truncated
to `11`, the corner `-0.25` to `0` and the corner `44.25` to `44`. -/
theorem edgeHand_roi :
    handRoi sampleEnv edgeHandKinect.spinePxColorSpaceVersion edgeHandKinect.lHandPos =
      { x := 0, y := 44, width := 11, height := 11 } := by
  decide!

/-- A tick never changes the mode. -/
theorem tick_mode (e : Env) (s : Kinect) (i : TickInput) : (s.tick e i).mode = s.mode := by
  cases hm : s.mode <;> cases hs : s.frameStacking <;> cases hl : i.leftHandActivated <;>
    cases hr : i.rightHandActivated <;>
    simp [Kinect.tick, Kinect.sense, Kinect.updateFrame, Kinect.startStop, Kinect.stack,
      Kinect.finalizeSession, Kinect.standardize, Kinect.standardSizeCheck, Kinect.save,
      needStackedCnt, hm, hs, hl, hr] <;>
    split_ifs <;> simp [hm]

/-- On the stop transition `updateFrame` is the optional finalisation followed by
`endSession`. -/
theorem updateFrame_stop_eq (e : Env) (s : Kinect)
    (hm : s.mode ≠ KINECT_MODE_IDLE) (hs : s.frameStacking = true)
    (hl : s.leftHandActivated = false) (hr : s.rightHandActivated = false) :
    s.updateFrame e =
      (if s.frameCollection.length > needStackedCnt s.mode then s.finalizeSession e
        else s).endSession := by
  simp [Kinect.updateFrame, Kinect.startStop, Kinect.stack, Kinect.endSession, hm, hs, hl, hr]

/-- A tick keeps the three collections equally long, empty when idle and non-empty
when stacking. -/
theorem tick_lengths (e : Env) (s : Kinect) (i : TickInput)
    (hL : s.lhandCollection.length = s.frameCollection.length)
    (hR : s.rhandCollection.length = s.frameCollection.length)
    (h0 : s.frameStacking = false → s.frameCollection.length = 0)
    (h1 : s.frameStacking = true → 1 ≤ s.frameCollection.length) :
    (s.tick e i).lhandCollection.length = (s.tick e i).frameCollection.length ∧
    (s.tick e i).rhandCollection.length = (s.tick e i).frameCollection.length ∧
    ((s.tick e i).frameStacking = false → (s.tick e i).frameCollection.length = 0) ∧
    ((s.tick e i).frameStacking = true → 1 ≤ (s.tick e i).frameCollection.length) := by
  cases hm : s.mode <;> cases hs : s.frameStacking <;> cases hl : i.leftHandActivated <;>
    cases hr : i.rightHandActivated <;>
    simp [Kinect.tick, Kinect.sense, Kinect.updateFrame, Kinect.startStop, Kinect.stack,
      hm, hs, hl, hr, hL, hR] <;>
    simp_all

/-- A tick leaves the `recorded` counter as it is or adds one to it. -/
theorem tick_recorded (e : Env) (s : Kinect) (i : TickInput) :
    s.recorded ≤ (s.tick e i).recorded ∧ (s.tick e i).recorded ≤ s.recorded + 1 := by
  cases hm : s.mode <;> cases hs : s.frameStacking <;> cases hl : i.leftHandActivated <;>
    cases hr : i.rightHandActivated <;>
    simp [Kinect.tick, Kinect.sense, Kinect.updateFrame, Kinect.startStop, Kinect.stack,
      Kinect.finalizeSession, Kinect.standardize, Kinect.standardSizeCheck, Kinect.save,
      needStackedCnt, hm, hs, hl, hr] <;>
    split_ifs <;> simp

/-- One event keeps the length invariant and moves `recorded` by zero or one. -/
theorem step_lengths (e : Env) (s : Kinect) (ev : Event)
    (hL : s.lhandCollection.length = s.frameCollection.length)
    (hR : s.rhandCollection.length = s.frameCollection.length)
    (h0 : s.frameStacking = false → s.frameCollection.length = 0)
    (h1 : s.frameStacking = true → 1 ≤ s.frameCollection.length) :
    (s.step e ev).lhandCollection.length = (s.step e ev).frameCollection.length ∧
    (s.step e ev).rhandCollection.length = (s.step e ev).frameCollection.length ∧
    ((s.step e ev).frameStacking = false → (s.step e ev).frameCollection.length = 0) ∧
    ((s.step e ev).frameStacking = true → 1 ≤ (s.step e ev).frameCollection.length) := by
  cases ev with
  | setMode m => exact ⟨hL, hR, h0, h1⟩
  | tick i => exact tick_lengths e s i hL hR h0 h1

theorem step_recorded (e : Env) (s : Kinect) (ev : Event) :
    s.recorded ≤ (s.step e ev).recorded ∧ (s.step e ev).recorded ≤ s.recorded + 1 := by
  cases ev with
  | setMode m => exact ⟨le_refl _, by simp [Kinect.step, Kinect.setMode]⟩
  | tick i => exact tick_recorded e s i

/-- The length invariant and the monotonicity of `recorded` along a history. -/
theorem runEvents_lengths (e : Env) (evs : List Event) :
    ∀ s : Kinect,
    s.lhandCollection.length = s.frameCollection.length →
    s.rhandCollection.length = s.frameCollection.length →
    (s.frameStacking = false → s.frameCollection.length = 0) →
    (s.frameStacking = true → 1 ≤ s.frameCollection.length) →
    (s.runEvents e evs).lhandCollection.length = (s.runEvents e evs).frameCollection.length ∧
    (s.runEvents e evs).rhandCollection.length = (s.runEvents e evs).frameCollection.length ∧
    ((s.runEvents e evs).frameStacking = false →
      (s.runEvents e evs).frameCollection.length = 0) ∧
    ((s.runEvents e evs).frameStacking = true →
      1 ≤ (s.runEvents e evs).frameCollection.length) ∧
    s.recorded ≤ (s.runEvents e evs).recorded := by
  induction evs with
  | nil => intro s hL hR h0 h1; exact ⟨hL, hR, h0, h1, le_refl _⟩
  | cons ev rest ih =>
    intro s hL hR h0 h1
    obtain ⟨a1, a2, a3, a4⟩ := step_lengths e s ev hL hR h0 h1
    obtain ⟨b1, b2, b3, b4, b5⟩ := ih (s.step e ev) a1 a2 a3 a4
    have hrun : s.runEvents e (ev :: rest) = (s.step e ev).runEvents e rest := by
      simp [Kinect.runEvents]
    rw [hrun]
    exact ⟨b1, b2, b3, b4, le_trans (step_recorded e s ev).1 b5⟩

/-- The counter and the trace of `save` calls after the stop transition, in terms of
the three standardised collections and the size test as written in the source. -/
theorem updateFrame_stop_export (e : Env) (s : Kinect)
    (hmode : s.mode = KINECT_MODE_PREDICT ∨ s.mode = KINECT_MODE_OUTPUT)
    (hs : s.frameStacking = true)
    (hl : s.leftHandActivated = false) (hr : s.rightHandActivated = false) :
    s.updateFrame e =
      (if needStackedCnt s.mode < s.frameCollection.length ∧
          (e.frameSetStandard s.recordStartTime s.frameCollection).length =
            e.FRAME_STANDARD_SIZE ∧
          (e.rhandSetStandard s.recordStartTime s.rhandCollection).length =
            e.IMAEG_STANDARD_FRAME_SIZE then
        { s with
          frameStacking := false
          frameCollection := []
          rhandCollection := []
          lhandCollection := []
          recorded := s.recorded + 1
          saveLog := s.saveLog ++
            [{ isSending := decide (s.mode = KINECT_MODE_PREDICT)
               label := s.label
               frames := e.frameSetStandard s.recordStartTime s.frameCollection
               lhand := e.lhandSetStandard s.recordStartTime s.lhandCollection
               rhand := e.rhandSetStandard s.recordStartTime s.rhandCollection }] }
      else
        { s with
          frameStacking := false
          frameCollection := []
          rhandCollection := []
          lhandCollection := [] }) := by
  have hm : s.mode ≠ KINECT_MODE_IDLE := by
    rcases hmode with h | h <;> simp [h]
  have hfin : s.finalizeSession e =
      (if (s.standardize e).standardSizeCheck e then
        { (s.standardize e).save (decide (s.mode = KINECT_MODE_PREDICT)) with
          recorded := s.recorded + 1 }
       else s.standardize e) := by
    rcases hmode with h | h <;> simp [Kinect.finalizeSession, h] <;> rfl
  rw [updateFrame_stop_eq e s hm hs hl hr]
  by_cases hlt : needStackedCnt s.mode < s.frameCollection.length
  · have hgt : s.frameCollection.length > needStackedCnt s.mode := hlt
    rw [if_pos hgt, hfin]
    by_cases hF : (e.frameSetStandard s.recordStartTime s.frameCollection).length =
        e.FRAME_STANDARD_SIZE <;>
    by_cases hR : (e.rhandSetStandard s.recordStartTime s.rhandCollection).length =
        e.IMAEG_STANDARD_FRAME_SIZE <;>
    simp [Kinect.standardize, Kinect.standardSizeCheck, Kinect.save,
      Kinect.endSession, hlt, hF, hR]
  · have hnot : ¬ (s.frameCollection.length > needStackedCnt s.mode) := hlt
    rw [if_neg hnot, if_neg (fun h => hlt h.1)]
    rfl

/-- The capture times after a tick with an active hand, in a recording mode. -/
theorem tick_times_active (e : Env) (s : Kinect) (i : TickInput)
    (hm : s.mode ≠ KINECT_MODE_IDLE) (ha : i.active = true) :
    (s.tick e i).frameTimes = s.frameTimes ++ [i.lastFrameRelativeTime] ∧
    (s.tick e i).lhandTimes = s.lhandTimes ++ [i.lastFrameRelativeTime] ∧
    (s.tick e i).rhandTimes = s.rhandTimes ++ [i.lastFrameRelativeTime] ∧
    (s.tick e i).frameStacking = true ∧
    (s.tick e i).recordStartTime =
      (if s.frameStacking then s.recordStartTime else i.lastFrameRelativeTime) := by
  unfold TickInput.active at ha
  cases hs : s.frameStacking <;> cases hl : i.leftHandActivated <;>
    cases hr : i.rightHandActivated <;>
    simp_all [Kinect.tick, Kinect.sense, Kinect.updateFrame, Kinect.startStop, Kinect.stack,
      Kinect.currentFrame, Kinect.currentLeftImage, Kinect.currentRightImage,
      Kinect.frameTimes, Kinect.lhandTimes, Kinect.rhandTimes]

/-- The capture times after a tick with both hands inactive, in a recording mode. -/
theorem tick_times_inactive (e : Env) (s : Kinect) (i : TickInput)
    (hm : s.mode ≠ KINECT_MODE_IDLE) (ha : i.active = false) :
    (s.tick e i).frameTimes = (if s.frameStacking then [] else s.frameTimes) ∧
    (s.tick e i).lhandTimes = (if s.frameStacking then [] else s.lhandTimes) ∧
    (s.tick e i).rhandTimes = (if s.frameStacking then [] else s.rhandTimes) ∧
    (s.tick e i).frameStacking = false := by
  unfold TickInput.active at ha
  rw [Bool.or_eq_false_iff] at ha
  obtain ⟨hl, hr⟩ := ha
  cases hs : s.frameStacking <;>
    simp [Kinect.tick, Kinect.sense, Kinect.updateFrame, Kinect.startStop, Kinect.stack,
      Kinect.frameTimes, Kinect.lhandTimes, Kinect.rhandTimes, hm, hs, hl, hr]

/-- A tick in a recording mode whose timestamp is not below the bound `b` of the
stored capture times keeps the timestamp invariant, with the tick's timestamp as the
new bound. -/
theorem tick_times (e : Env) (s : Kinect) (i : TickInput) (b : Int)
    (hm : s.mode ≠ KINECT_MODE_IDLE)
    (hL : s.lhandTimes = s.frameTimes) (hR : s.rhandTimes = s.frameTimes)
    (hP : s.frameTimes.Pairwise (fun a c => a ≤ c))
    (hB : ∀ t ∈ s.frameTimes, t ≤ b)
    (h0 : s.frameStacking = false → s.frameTimes = [])
    (h1 : s.frameStacking = true → s.frameTimes.head? = some s.recordStartTime)
    (hb : b ≤ i.lastFrameRelativeTime) :
    (s.tick e i).lhandTimes = (s.tick e i).frameTimes ∧
    (s.tick e i).rhandTimes = (s.tick e i).frameTimes ∧
    (s.tick e i).frameTimes.Pairwise (fun a c => a ≤ c) ∧
    (∀ t ∈ (s.tick e i).frameTimes, t ≤ i.lastFrameRelativeTime) ∧
    ((s.tick e i).frameStacking = false → (s.tick e i).frameTimes = []) ∧
    ((s.tick e i).frameStacking = true →
      (s.tick e i).frameTimes.head? = some (s.tick e i).recordStartTime) := by
  have hB2 : ∀ t ∈ s.frameTimes, t ≤ i.lastFrameRelativeTime :=
    fun t ht => le_trans (hB t ht) hb
  cases ha : i.active
  · obtain ⟨a1, a2, a3, a4⟩ := tick_times_inactive e s i hm ha
    rw [a1, a2, a3, a4]
    cases hs : s.frameStacking
    · simp only [Bool.false_eq_true, if_false]
      exact ⟨hL, hR, hP, hB2, fun _ => h0 hs, fun h => by cases h⟩
    · simp
  · obtain ⟨a1, a2, a3, a4, a5⟩ := tick_times_active e s i hm ha
    rw [a1, a2, a3, a4, a5, hL, hR]
    refine ⟨rfl, rfl, ?_, ?_, ?_, ?_⟩
    · rw [List.pairwise_append]
      exact ⟨hP, List.pairwise_singleton _ _, fun a ha c hc => by
        rw [List.mem_singleton] at hc; rw [hc]; exact hB2 a ha⟩
    · intro t ht
      rw [List.mem_append, List.mem_singleton] at ht
      rcases ht with ht | ht
      · exact hB2 t ht
      · rw [ht]
    · intro h
      cases h
    · intro _
      cases hs : s.frameStacking
      · rw [h0 hs]; rfl
      · have h := h1 hs
        cases hft : s.frameTimes with
        | nil => rw [hft] at h; cases h
        | cons a rest => rw [hft] at h; simpa using h

/-- The timestamp invariant along a run of ticks with non-decreasing timestamps. -/
theorem run_times (e : Env) (is : List TickInput) :
    ∀ (s : Kinect) (b : Int), s.mode ≠ KINECT_MODE_IDLE →
    s.lhandTimes = s.frameTimes → s.rhandTimes = s.frameTimes →
    s.frameTimes.Pairwise (fun a c => a ≤ c) →
    (∀ t ∈ s.frameTimes, t ≤ b) →
    (s.frameStacking = false → s.frameTimes = []) →
    (s.frameStacking = true → s.frameTimes.head? = some s.recordStartTime) →
    List.Chain (fun a c => a ≤ c) b (tickTimes is) →
    (s.run e is).lhandTimes = (s.run e is).frameTimes ∧
    (s.run e is).rhandTimes = (s.run e is).frameTimes ∧
    (s.run e is).frameTimes.Pairwise (fun a c => a ≤ c) ∧
    ((s.run e is).frameStacking = false → (s.run e is).frameTimes = []) ∧
    ((s.run e is).frameStacking = true →
      (s.run e is).frameTimes.head? = some (s.run e is).recordStartTime) := by
  induction is with
  | nil => intro s b _ hL hR hP _ h0 h1 _; exact ⟨hL, hR, hP, h0, h1⟩
  | cons i rest ih =>
    intro s b hm hL hR hP hB h0 h1 hc
    simp only [tickTimes, List.map_cons, List.chain_cons] at hc
    obtain ⟨a1, a2, a3, a4, a5, a6⟩ := tick_times e s i b hm hL hR hP hB h0 h1 hc.1
    have hm1 : (s.tick e i).mode ≠ KINECT_MODE_IDLE := by rw [tick_mode]; exact hm
    have hrun : s.run e (i :: rest) = (s.tick e i).run e rest := by simp [Kinect.run]
    rw [hrun]
    exact ih (s.tick e i) i.lastFrameRelativeTime hm1 a1 a2 a3 a4 a5 a6 hc.2

theorem getElem?_append_of_some {α : Type} (l : List α) (a b : α) (k : Nat)
    (h : l[k]? = some b) : (l ++ [a])[k]? = some b := by
  obtain ⟨hk, _⟩ := List.getElem?_eq_some.mp h
  rw [List.getElem?_append_left hk]; exact h

theorem getElem?_of_append_lt {α : Type} (l : List α) (a b : α) (j k : Nat)
    (hjk : j < k) (hk : k ≤ l.length) (h : (l ++ [a])[j]? = some b) : l[j]? = some b := by
  rw [List.getElem?_append_left (by omega)] at h; exact h

/-- The invariant survives a body that leaves the accumulator as it is. -/
theorem SelInv.extend {e : Env} {s0 : Kinect} {done : List Body} {acc : ℚ × Kinect}
    (h : SelInv e s0 done acc) (body : Body)
    (hb : body.candidate = true → acc.1 ≤ headDistance e body) :
    SelInv e s0 (done ++ [body]) acc := by
  refine ⟨h.le_max, ?_, h.distance_eq, h.none_yet, ?_, ?_⟩
  · intro b hmem hc
    rw [List.mem_append, List.mem_singleton] at hmem
    rcases hmem with hmem | hmem
    · exact h.lower b hmem hc
    · rw [hmem] at hc ⊢; exact hb hc
  · intro ha
    obtain ⟨h1, k, b, hk, hc, hd, hfirst, hid⟩ := h.found ha
    have hklt : k < done.length := (List.getElem?_eq_some.mp hk).1
    exact ⟨h1, k, b, getElem?_append_of_some _ _ _ _ hk, hc, hd,
      fun j b' hj hjb hcb => hfirst j b' hj
        (getElem?_of_append_lt _ _ _ _ _ hj (le_of_lt hklt) hjb) hcb, hid⟩
  · obtain ⟨l, hl, hcase⟩ := h.log
    refine ⟨l, hl, ?_⟩
    rcases hcase with hcase | ⟨g1, g2, b, g3, g4, g5⟩
    · exact Or.inl hcase
    · exact Or.inr ⟨g1, g2, b, getElem?_append_of_some _ _ _ _ g3, g4, g5⟩

/-- What one iteration does, by cases on the guards. -/
theorem findClosestBodyStep_eq (e : Env) (count : Nat) (body : Body) (acc : ℚ × Kinect) :
    Kinect.findClosestBodyStep e count body acc =
      if body.candidate = true ∧ headDistance e body < acc.1 then
        if acc.2.trackingId = body.TrackingId then
          (headDistance e body, { acc.2 with atLeastOneTracked := true })
        else
          (headDistance e body,
            { acc.2 with
              atLeastOneTracked := true
              faceTrackingIds := acc.2.faceTrackingIds ++ [body.TrackingId]
              trackingId := body.TrackingId
              trackingCount := count
              produced := false })
      else acc := by
  unfold Kinect.findClosestBodyStep Body.candidate headDistance Body.head
  cases hT : body.IsTracked
  · simp
  · by_cases hH : (body.Joints JointType_Head).TrackingState = TrackingState_NotTracked
    · simp [hH]
    · by_cases hd : acc.1 ≤ e.sqrt ((body.Joints JointType_Head).Position.X ^ 2 +
          (body.Joints JointType_Head).Position.Y ^ 2 +
          (body.Joints JointType_Head).Position.Z ^ 2)
      · simp [hH, hd, not_lt.mpr hd]
      · simp [hH, hd, not_le.mp hd]

/-- The invariant survives one iteration. -/
theorem SelInv.step {e : Env} {s0 : Kinect} {done : List Body} {acc : ℚ × Kinect}
    (h : SelInv e s0 done acc) (body : Body) :
    SelInv e s0 (done ++ [body]) (Kinect.findClosestBodyStep e done.length body acc) := by
  rw [findClosestBodyStep_eq]
  by_cases hcd : body.candidate = true ∧ headDistance e body < acc.1
  · obtain ⟨hc, hd⟩ := hcd
    rw [if_pos ⟨hc, hd⟩]
    have hlow : ∀ b ∈ done ++ [body], b.candidate = true →
        headDistance e body ≤ headDistance e b := by
      intro b hmem hcb
      rw [List.mem_append, List.mem_singleton] at hmem
      rcases hmem with hmem | hmem
      · exact le_of_lt (lt_of_lt_of_le hd (h.lower b hmem hcb))
      · rw [hmem]
    have hfirst : ∀ (j : Nat) (b' : Body), j < done.length →
        (done ++ [body])[j]? = some b' → b'.candidate = true →
        headDistance e body < headDistance e b' := by
      intro j b' hj hjb hcb
      have hjb' := getElem?_of_append_lt _ _ _ _ _ hj (le_refl _) hjb
      exact lt_of_lt_of_le hd (h.lower b' (List.getElem?_mem hjb') hcb)
    have hmax : headDistance e body < FLT_MAX := lt_of_lt_of_le hd h.le_max
    by_cases hid : acc.2.trackingId = body.TrackingId
    · rw [if_pos hid]
      refine ⟨le_of_lt hmax, hlow, h.distance_eq, (fun ha => by cases ha), fun _ =>
        ⟨hmax, done.length, body, List.getElem?_concat_length _ _, hc, rfl, hfirst, hid⟩, ?_⟩
      obtain ⟨l, hl, hcase⟩ := h.log
      refine ⟨l, hl, ?_⟩
      rcases hcase with hcase | ⟨g1, g2, b, g3, g4, g5⟩
      · exact Or.inl hcase
      · exact Or.inr ⟨g1, g2, b, getElem?_append_of_some _ _ _ _ g3, g4, g5⟩
    · rw [if_neg hid]
      refine ⟨le_of_lt hmax, hlow, h.distance_eq, (fun ha => by cases ha), fun _ =>
        ⟨hmax, done.length, body, List.getElem?_concat_length _ _, hc, rfl, hfirst, rfl⟩, ?_⟩
      obtain ⟨l, hl, _⟩ := h.log
      refine ⟨l ++ [body.TrackingId], ?_, Or.inr ⟨List.getLast?_concat _, rfl, body,
        List.getElem?_concat_length _ _, hc, rfl⟩⟩
      show acc.2.faceTrackingIds ++ [body.TrackingId] =
        s0.faceTrackingIds ++ (l ++ [body.TrackingId])
      rw [hl, List.append_assoc]
  · rw [if_neg hcd]
    exact h.extend body (fun hc => not_lt.mp (fun hd => hcd ⟨hc, hd⟩))

/-- The invariant after the whole loop. -/
theorem SelInv.loop {e : Env} {s0 : Kinect} (rest : List Body) :
    ∀ (done : List Body) (acc : ℚ × Kinect), SelInv e s0 done acc →
      SelInv e s0 (done ++ rest) (Kinect.findClosestBodyLoop e done.length rest acc) := by
  induction rest with
  | nil => intro done acc h; simpa [Kinect.findClosestBodyLoop] using h
  | cons body rest ih =>
    intro done acc h
    have h1 := ih (done ++ [body]) _ (h.step body)
    simpa [Kinect.findClosestBodyLoop] using h1

/-- The invariant holds for the result of the loop of `findClosestBody`. -/
theorem findClosestBody_inv (e : Env) (bodies : List Body) (s : Kinect) :
    SelInv e { s with atLeastOneTracked := false } bodies
      (Kinect.findClosestBodyLoop e 0 bodies
        (FLT_MAX, { s with atLeastOneTracked := false })) := by
  have h0 : SelInv e { s with atLeastOneTracked := false } []
      (FLT_MAX, { s with atLeastOneTracked := false }) :=
    ⟨le_refl _, (fun b hb => by cases hb), rfl, fun _ => ⟨rfl, rfl, rfl, rfl, rfl⟩,
      (fun ha => by cases ha), ⟨[], by simp, Or.inl ⟨rfl, rfl, rfl, rfl⟩⟩⟩
  simpa using SelInv.loop bodies [] _ h0

/-- The body selected by the loop is unique. -/
theorem selectedAt_unique {e : Env} {bodies : List Body} {m m' : Nat} {b b' : Body}
    (h : selectedAt e bodies m b) (h' : selectedAt e bodies m' b') : m = m' ∧ b = b' := by
  obtain ⟨h1, h2, _, h4, h5⟩ := h
  obtain ⟨g1, g2, _, g4, g5⟩ := h'
  have hle : headDistance e b ≤ headDistance e b' := h4 b' (List.getElem?_mem g1) g2
  have hge : headDistance e b' ≤ headDistance e b := g4 b (List.getElem?_mem h1) h2
  have hm : m = m' := by
    rcases Nat.lt_trichotomy m m' with hlt | heq | hgt
    · exact absurd (g5 m b hlt h1 h2) (not_lt.mpr hle)
    · exact heq
    · exact absurd (h5 m' b' hgt g1 g2) (not_lt.mpr hge)
  subst hm
  rw [h1] at g1
  exact ⟨rfl, Option.some.inj g1⟩

/-- The members of the object after `findClosestBody`, read off the result of the loop. -/
theorem findClosestBody_fields (e : Env) (bodies : List Body) (s : Kinect) :
    (s.findClosestBody e bodies).atLeastOneTracked =
      (Kinect.findClosestBodyLoop e 0 bodies
        (FLT_MAX, { s with atLeastOneTracked := false })).2.atLeastOneTracked ∧
    (s.findClosestBody e bodies).trackingId =
      (Kinect.findClosestBodyLoop e 0 bodies
        (FLT_MAX, { s with atLeastOneTracked := false })).2.trackingId ∧
    (s.findClosestBody e bodies).trackingCount =
      (Kinect.findClosestBodyLoop e 0 bodies
        (FLT_MAX, { s with atLeastOneTracked := false })).2.trackingCount ∧
    (s.findClosestBody e bodies).produced =
      (Kinect.findClosestBodyLoop e 0 bodies
        (FLT_MAX, { s with atLeastOneTracked := false })).2.produced ∧
    (s.findClosestBody e bodies).faceTrackingIds =
      (Kinect.findClosestBodyLoop e 0 bodies
        (FLT_MAX, { s with atLeastOneTracked := false })).2.faceTrackingIds ∧
    (s.findClosestBody e bodies).distance =
      (if (Kinect.findClosestBodyLoop e 0 bodies
          (FLT_MAX, { s with atLeastOneTracked := false })).2.atLeastOneTracked then
        (Kinect.findClosestBodyLoop e 0 bodies
          (FLT_MAX, { s with atLeastOneTracked := false })).1
      else
        (Kinect.findClosestBodyLoop e 0 bodies
          (FLT_MAX, { s with atLeastOneTracked := false })).2.distance) := by
  unfold Kinect.findClosestBody
  cases h : (Kinect.findClosestBodyLoop e 0 bodies
      (FLT_MAX, { s with atLeastOneTracked := false })).2.atLeastOneTracked <;>
    simp [h]

/-- The outcome of `findClosestBody`. Either no tracked body with a tracked head has a
head distance below `FLT_MAX`, and then `atLeastOneTracked` is false and the selection
members are untouched; or the loop selects a body, `atLeastOneTracked` is true,
`distance` and `trackingId` are those of the selected body, and either nothing was
re-bound or the last re-binding was to the id of a candidate body that sits at
`trackingCount`. -/
theorem findClosestBody_result (e : Env) (bodies : List Body) (s : Kinect) :
    ((∀ b ∈ bodies, b.candidate = true → FLT_MAX ≤ headDistance e b) ∧
      (s.findClosestBody e bodies).atLeastOneTracked = false ∧
      (s.findClosestBody e bodies).distance = s.distance ∧
      (s.findClosestBody e bodies).trackingId = s.trackingId ∧
      (s.findClosestBody e bodies).trackingCount = s.trackingCount ∧
      (s.findClosestBody e bodies).produced = s.produced ∧
      (s.findClosestBody e bodies).faceTrackingIds = s.faceTrackingIds) ∨
    (∃ (m : Nat) (b : Body), selectedAt e bodies m b ∧
      (s.findClosestBody e bodies).atLeastOneTracked = true ∧
      (s.findClosestBody e bodies).distance = headDistance e b ∧
      (s.findClosestBody e bodies).trackingId = b.TrackingId ∧
      ∃ l, (s.findClosestBody e bodies).faceTrackingIds = s.faceTrackingIds ++ l ∧
        ((l = [] ∧ (s.findClosestBody e bodies).trackingId = s.trackingId ∧
            (s.findClosestBody e bodies).trackingCount = s.trackingCount ∧
            (s.findClosestBody e bodies).produced = s.produced) ∨
          (l.getLast? = some (s.findClosestBody e bodies).trackingId ∧
            (s.findClosestBody e bodies).produced = false ∧
            ∃ b' : Body, bodies[(s.findClosestBody e bodies).trackingCount]? = some b' ∧
              b'.candidate = true ∧
              b'.TrackingId = (s.findClosestBody e bodies).trackingId))) := by
  have inv := findClosestBody_inv e bodies s
  obtain ⟨f1, f2, f3, f4, f5, f6⟩ := findClosestBody_fields e bodies s
  rw [f1, f2, f3, f4, f5, f6]
  cases ha : (Kinect.findClosestBodyLoop e 0 bodies
      (FLT_MAX, { s with atLeastOneTracked := false })).2.atLeastOneTracked
  · left
    obtain ⟨n1, n2, n3, n4, n5⟩ := inv.none_yet ha
    refine ⟨fun b hb hc => ?_, rfl, ?_, n2, n3, n4, n5⟩
    · rw [← n1]; exact inv.lower b hb hc
    · simpa using inv.distance_eq
  · right
    obtain ⟨h1, k, b, hk, hc, hd, hfirst, hid⟩ := inv.found ha
    refine ⟨k, b, ⟨hk, hc, by rw [hd]; exact h1, fun b' hb' hc' => ?_,
      fun j b' hj hjb hcb => ?_⟩, rfl, by simp [hd], hid, ?_⟩
    · rw [hd]; exact inv.lower b' hb' hc'
    · rw [hd]; exact hfirst j b' hj hjb hcb
    · exact inv.log

/-- With distinct ids and a consistent stored pair, `trackingCount` ends at the index
of the selected body. -/
theorem findClosestBody_selects (e : Env) (bodies : List Body) (s : Kinect) (m : Nat)
    (b : Body) (hsel : selectedAt e bodies m b)
    (hdist : distinctCandidateIds bodies) (hcons : storedPairConsistent bodies s) :
    (s.findClosestBody e bodies).atLeastOneTracked = true ∧
    (s.findClosestBody e bodies).distance = headDistance e b ∧
    (s.findClosestBody e bodies).trackingId = b.TrackingId ∧
    (s.findClosestBody e bodies).trackingCount = m := by
  rcases findClosestBody_result e bodies s with ⟨hno, _⟩ | ⟨m', b', hsel', r1, r2, r3, l, _, hlog⟩
  · exact absurd hsel.2.2.1 (not_lt.mpr (hno b (List.getElem?_mem hsel.1) hsel.2.1))
  · obtain ⟨hm, hb⟩ := selectedAt_unique hsel' hsel
    subst hm; subst hb
    refine ⟨r1, r2, r3, ?_⟩
    rcases hlog with ⟨_, g2, g3, _⟩ | ⟨_, _, c, g3, g4, g5⟩
    · rw [g3]
      exact hcons m' b' hsel.1 hsel.2.1 (by rw [← g2, r3])
    · exact hdist _ _ c b' g3 hsel.1 g4 hsel.2.1 (by rw [g5, r3])

/-- When a body is selected and its id is not the stored one, the face source is
re-bound, last to that id, and `produced` is reset. -/
theorem selected_body_rebinds (e : Env) (bodies : List Body) (s : Kinect)
    (m : Nat) (b : Body) (hsel : selectedAt e bodies m b)
    (hne : b.TrackingId ≠ s.trackingId) :
    (∃ l, (s.findClosestBody e bodies).faceTrackingIds = s.faceTrackingIds ++ l ∧
      l.getLast? = some b.TrackingId) ∧
    (s.findClosestBody e bodies).trackingId = b.TrackingId ∧
    (s.findClosestBody e bodies).produced = false := by
  rcases findClosestBody_result e bodies s with ⟨hno, _⟩ | ⟨m', b', hsel', _, _, r3, l, hl, hlog⟩
  · exact absurd hsel.2.2.1 (not_lt.mpr (hno b (List.getElem?_mem hsel.1) hsel.2.1))
  · obtain ⟨hm, hb⟩ := selectedAt_unique hsel' hsel
    subst hm; subst hb
    rcases hlog with ⟨_, g2, _, _⟩ | ⟨g1, g2, _⟩
    · exact absurd (by rw [← r3, g2]) hne
    · exact ⟨⟨l, hl, by rw [g1, r3]⟩, r3, g2⟩

/-- The square root of `sampleEnv` is exact on squares of natural numbers. -/
theorem sampleEnv_sqrt_sq (n : Nat) : sampleEnv.sqrt (((n * n : Nat) : ℚ)) = n := by
  show ((Nat.sqrt ((((n * n : Nat) : ℚ)).num.toNat * (((n * n : Nat) : ℚ)).den) : Nat) : ℚ) /
    ((((n * n : Nat) : ℚ)).den : ℚ) = n
  rw [Rat.num_natCast, Rat.den_natCast, Int.toNat_natCast, Nat.mul_one, Nat.sqrt_eq]
  simp

/-- The head distance of a sample body is its depth. -/
theorem headDistance_sampleBody (tracked : Bool) (headState : TrackingState) (z id : Nat) :
    headDistance sampleEnv (sampleBody tracked headState z id) = z := by
  have h : ((0 : ℚ) ^ 2 + 0 ^ 2 + (z : ℚ) ^ 2) = ((z * z : Nat) : ℚ) := by
    push_cast; ring
  show sampleEnv.sqrt ((0 : ℚ) ^ 2 + 0 ^ 2 + (z : ℚ) ^ 2) = z
  rw [h, sampleEnv_sqrt_sq]

theorem two_lt_FLT_MAX : (2 : ℚ) < FLT_MAX := by
  norm_num [FLT_MAX]

/-- Two bodies with different ids have pairwise distinct candidate ids. -/
theorem distinctCandidateIds_pair (a b : Body) (h : a.TrackingId ≠ b.TrackingId) :
    distinctCandidateIds [a, b] := by
  intro i j bi bj hi hj _ _ hid
  rcases i with _ | _ | i <;> rcases j with _ | _ | j <;> simp at hi hj
  · rfl
  · rw [← hi, ← hj] at hid; exact absurd hid h
  · rw [← hi, ← hj] at hid; exact absurd hid.symm h
  · rfl

/-- A stored id that no body carries is consistent with the array. -/
theorem storedPairConsistent_of_absent (bodies : List Body) (s : Kinect)
    (h : ∀ b ∈ bodies, b.TrackingId ≠ s.trackingId) : storedPairConsistent bodies s :=
  fun _ b hb _ hid => absurd hid (h b (List.getElem?_mem hb))

/-- In `hiddenHeadBodies` the loop selects the body at index 1. -/
theorem hiddenHead_selected :
    selectedAt sampleEnv hiddenHeadBodies 1 (sampleBody true TrackingState_Tracked 2 7) := by
  refine ⟨rfl, rfl, ?_, ?_, ?_⟩
  · rw [headDistance_sampleBody]; exact_mod_cast two_lt_FLT_MAX
  · intro b' hb' hc
    simp only [hiddenHeadBodies, List.mem_cons, List.mem_singleton, List.not_mem_nil,
      or_false] at hb'
    rcases hb' with hb' | hb'
    · rw [hb'] at hc; cases hc
    · rw [hb']
  · intro j b' hj hjb hc
    have hj0 : j = 0 := by omega
    subst hj0
    have hb' : b' = sampleBody true TrackingState_NotTracked 1 5 :=
      (Option.some.inj hjb).symm
    rw [hb'] at hc; cases hc

/-- In `tiedBodies` the loop selects the body at index 0. -/
theorem tied_selected :
    selectedAt sampleEnv tiedBodies 0 (sampleBody true TrackingState_Tracked 2 7) := by
  refine ⟨rfl, rfl, ?_, ?_, ?_⟩
  · rw [headDistance_sampleBody]; exact_mod_cast two_lt_FLT_MAX
  · intro b' hb' _
    simp only [tiedBodies, List.mem_cons, List.mem_singleton, List.not_mem_nil,
      or_false] at hb'
    rcases hb' with hb' | hb' <;> simp [hb', headDistance_sampleBody]
  · intro j b' hj _ _
    omega

/-- The stored pair of `trackingSecond` is consistent with `tiedBodies`. -/
theorem trackingSecond_consistent : storedPairConsistent tiedBodies trackingSecond := by
  intro i b hb _ hid
  rcases i with _ | _ | i
  · have hb' : b = sampleBody true TrackingState_Tracked 2 7 := (Option.some.inj hb).symm
    rw [hb'] at hid; cases hid
  · rfl
  · simp [tiedBodies] at hb

theorem string_append_left_cancel (r a b : String) (h : r ++ a = r ++ b) : a = b := by
  have h1 := congrArg String.data h
  simp only [String.data_append] at h1
  exact String.ext (List.append_cancel_left h1)

theorem string_append_right_cancel (a b r : String) (h : a ++ r = b ++ r) : a = b := by
  have h1 := congrArg String.data h
  simp only [String.data_append] at h1
  exact String.ext (List.append_cancel_right h1)

/-- The persisted path is the specified directory over the root `PATH_DATA_FOLDER`. -/
theorem savePath_persisted (R labelName date operator : String) (label : Int) :
    savePath R label labelName date operator false =
      persistedDirectory R label labelName date operator := by
  simp [savePath, persistedDirectory, String.append_assoc]

/-- The transient path is `PATH_DATA_FOLDER` followed by `temp/`, with no separator in
between. -/
theorem savePath_transient (R labelName date operator : String) (label : Int) :
    savePath R label labelName date operator true = R ++ "temp/" := by
  simp [savePath, String.append_assoc]

/-- The timestamps of `handUpFor 5` are non-decreasing. -/
theorem handUpFor_five_chain : (tickTimes (handUpFor 5)).Chain' (fun a c => a ≤ c) := by
  have h : tickTimes (handUpFor 5) = [0, 1, 2, 3, 4] := rfl
  rw [h]
  simp

/-! ## Properties of the recorder -/

/-- C1: in a recording mode and not stacking, `updateFrame` starts a session exactly
when a hand is active: then `frameStacking` becomes true and `recordStartTime` is the
tick's `lastFrameRelativeTime`; with both hands inactive `frameStacking` stays false
and `recordStartTime` is unchanged. -/
theorem updateFrame_idle_start (e : Env) (s : Kinect)
    (hmode : s.mode = KINECT_MODE_PREDICT ∨ s.mode = KINECT_MODE_OUTPUT)
    (hidle : s.frameStacking = false) :
    ((s.leftHandActivated = true ∨ s.rightHandActivated = true) →
        (s.updateFrame e).frameStacking = true ∧
        (s.updateFrame e).recordStartTime = s.lastFrameRelativeTime) ∧
    ((s.leftHandActivated = false ∧ s.rightHandActivated = false) →
        (s.updateFrame e).frameStacking = false ∧
        (s.updateFrame e).recordStartTime = s.recordStartTime) := by
  have hm : s.mode ≠ KINECT_MODE_IDLE := by
    rcases hmode with h | h <;> simp [h]
  constructor
  · intro hact
    have hor : (s.leftHandActivated || s.rightHandActivated) = true := by
      rcases hact with h | h <;> simp [h]
    simp [Kinect.updateFrame, Kinect.startStop, Kinect.stack, hm, hidle, hor]
  · rintro ⟨hl, hr⟩
    simp [Kinect.updateFrame, Kinect.startStop, Kinect.stack, hm, hidle, hl, hr]

/-- Witness for C1: the fresh Output-mode recorder on a tick at time 7 with the right
hand raised. -/
theorem updateFrame_idle_start_witness :
    ((startKinect KINECT_MODE_OUTPUT).sense (handUp 7)).frameStacking = false ∧
    (((startKinect KINECT_MODE_OUTPUT).sense (handUp 7)).updateFrame
        sampleEnv).frameStacking = true ∧
    (((startKinect KINECT_MODE_OUTPUT).sense (handUp 7)).updateFrame
        sampleEnv).recordStartTime = 7 :=
  ⟨rfl, (updateFrame_idle_start sampleEnv ((startKinect KINECT_MODE_OUTPUT).sense (handUp 7))
    (Or.inr rfl) rfl).1 (Or.inr rfl)⟩

/-- C2: in a recording mode and stacking, `updateFrame` keeps `frameStacking` true
exactly when at least one hand is active; with both hands inactive it ends with
`frameStacking` false and the three collections empty, whatever they held and
whether or not the session was exported. -/
theorem updateFrame_stacking_stop (e : Env) (s : Kinect)
    (hmode : s.mode = KINECT_MODE_PREDICT ∨ s.mode = KINECT_MODE_OUTPUT)
    (hstack : s.frameStacking = true) :
    ((s.updateFrame e).frameStacking = true ↔
        (s.leftHandActivated = true ∨ s.rightHandActivated = true)) ∧
    ((s.leftHandActivated = false ∧ s.rightHandActivated = false) →
        (s.updateFrame e).frameStacking = false ∧
        (s.updateFrame e).frameCollection = [] ∧
        (s.updateFrame e).lhandCollection = [] ∧
        (s.updateFrame e).rhandCollection = []) := by
  have hm : s.mode ≠ KINECT_MODE_IDLE := by
    rcases hmode with h | h <;> simp [h]
  cases hl : s.leftHandActivated <;> cases hr : s.rightHandActivated <;>
    simp [Kinect.updateFrame, Kinect.startStop, Kinect.stack, hm, hstack, hl, hr]

/-- Witness for C2: three ticks into a session in Output mode, on a tick with both
hands down. -/
theorem updateFrame_stacking_stop_witness :
    (((startKinect KINECT_MODE_OUTPUT).run sampleEnv (handUpFor 3)).sense
        (handsDown 3)).frameStacking = true ∧
    ((((startKinect KINECT_MODE_OUTPUT).run sampleEnv (handUpFor 3)).sense
        (handsDown 3)).updateFrame sampleEnv).frameStacking = false ∧
    ((((startKinect KINECT_MODE_OUTPUT).run sampleEnv (handUpFor 3)).sense
        (handsDown 3)).updateFrame sampleEnv).frameCollection = [] ∧
    ((((startKinect KINECT_MODE_OUTPUT).run sampleEnv (handUpFor 3)).sense
        (handsDown 3)).updateFrame sampleEnv).lhandCollection = [] ∧
    ((((startKinect KINECT_MODE_OUTPUT).run sampleEnv (handUpFor 3)).sense
        (handsDown 3)).updateFrame sampleEnv).rhandCollection = [] :=
  ⟨rfl, (updateFrame_stacking_stop sampleEnv
    (((startKinect KINECT_MODE_OUTPUT).run sampleEnv (handUpFor 3)).sense (handsDown 3))
    (Or.inr rfl) rfl).2 ⟨rfl, rfl⟩⟩

/-- C3: on every tick in a recording mode, if the machine is stacking after the
start/stop decision then exactly one sample, stamped with the tick's
`lastFrameRelativeTime`, is appended to each of the three collections; if it is idle
after the decision nothing is appended (each collection is what it was, or has been
cleared by the stop transition). -/
theorem updateFrame_appends_once (e : Env) (s : Kinect)
    (hmode : s.mode = KINECT_MODE_PREDICT ∨ s.mode = KINECT_MODE_OUTPUT) :
    ((s.startStop e).frameStacking = true →
        (s.updateFrame e).frameStacking = true ∧
        (s.updateFrame e).frameCollection = s.frameCollection ++ [s.currentFrame] ∧
        (s.updateFrame e).lhandCollection = s.lhandCollection ++ [s.currentLeftImage] ∧
        (s.updateFrame e).rhandCollection = s.rhandCollection ++ [s.currentRightImage] ∧
        s.currentFrame.time = s.lastFrameRelativeTime ∧
        s.currentLeftImage.time = s.lastFrameRelativeTime ∧
        s.currentRightImage.time = s.lastFrameRelativeTime) ∧
    ((s.startStop e).frameStacking = false →
        (s.updateFrame e).frameStacking = false ∧
        (s.updateFrame e).frameCollection = (if s.frameStacking then [] else s.frameCollection) ∧
        (s.updateFrame e).lhandCollection = (if s.frameStacking then [] else s.lhandCollection) ∧
        (s.updateFrame e).rhandCollection =
          (if s.frameStacking then [] else s.rhandCollection)) := by
  have hm : s.mode ≠ KINECT_MODE_IDLE := by
    rcases hmode with h | h <;> simp [h]
  cases hs : s.frameStacking <;> cases hl : s.leftHandActivated <;>
    cases hr : s.rightHandActivated <;>
    simp [Kinect.updateFrame, Kinect.startStop, Kinect.stack, Kinect.currentFrame,
      Kinect.currentLeftImage, Kinect.currentRightImage, hm, hs, hl, hr]

/-- Witness for C3: the fresh Predict-mode recorder on a tick at time 7 with the right
hand raised; one sample stamped 7 is appended to each empty collection. -/
theorem updateFrame_appends_once_witness :
    (((startKinect KINECT_MODE_PREDICT).sense (handUp 7)).startStop
        sampleEnv).frameStacking = true ∧
    (((startKinect KINECT_MODE_PREDICT).sense (handUp 7)).updateFrame
        sampleEnv).frameCollection =
      [] ++ [((startKinect KINECT_MODE_PREDICT).sense (handUp 7)).currentFrame] ∧
    (((startKinect KINECT_MODE_PREDICT).sense (handUp 7)).updateFrame
        sampleEnv).lhandCollection =
      [] ++ [((startKinect KINECT_MODE_PREDICT).sense (handUp 7)).currentLeftImage] ∧
    (((startKinect KINECT_MODE_PREDICT).sense (handUp 7)).updateFrame
        sampleEnv).rhandCollection =
      [] ++ [((startKinect KINECT_MODE_PREDICT).sense (handUp 7)).currentRightImage] ∧
    ((startKinect KINECT_MODE_PREDICT).sense (handUp 7)).currentFrame.time = 7 :=
  ⟨rfl,
    ((updateFrame_appends_once sampleEnv ((startKinect KINECT_MODE_PREDICT).sense (handUp 7))
      (Or.inl rfl)).1 rfl).2.1,
    ((updateFrame_appends_once sampleEnv ((startKinect KINECT_MODE_PREDICT).sense (handUp 7))
      (Or.inl rfl)).1 rfl).2.2.1,
    ((updateFrame_appends_once sampleEnv ((startKinect KINECT_MODE_PREDICT).sense (handUp 7))
      (Or.inl rfl)).1 rfl).2.2.2.1,
    ((updateFrame_appends_once sampleEnv ((startKinect KINECT_MODE_PREDICT).sense (handUp 7))
      (Or.inl rfl)).1 rfl).2.2.2.2.1⟩

/-- C5: a run that starts idle with empty collections in a recording mode, sees `n`
ticks with a hand active and then one tick with both hands inactive, with `n` below
the mode's threshold (35 in Output, 18 in Predict), never calls `save`, never changes
the `recorded` counter, and ends idle with the three collections empty. -/
theorem short_session_no_export (e : Env) (s0 : Kinect) (acts : List TickInput)
    (stop : TickInput)
    (hmode : (s0.mode = KINECT_MODE_OUTPUT ∧ acts.length < 35) ∨
             (s0.mode = KINECT_MODE_PREDICT ∧ acts.length < 18))
    (_hidle : s0.frameStacking = false)
    (hF : s0.frameCollection = []) (hL : s0.lhandCollection = [])
    (hR : s0.rhandCollection = [])
    (hacts : ∀ i ∈ acts, i.active = true) (hstop : stop.active = false) :
    (∀ k : Nat, (s0.run e ((acts ++ [stop]).take k)).saveLog = s0.saveLog ∧
        (s0.run e ((acts ++ [stop]).take k)).recorded = s0.recorded) ∧
    (s0.run e (acts ++ [stop])).frameStacking = false ∧
    (s0.run e (acts ++ [stop])).frameCollection = [] ∧
    (s0.run e (acts ++ [stop])).lhandCollection = [] ∧
    (s0.run e (acts ++ [stop])).rhandCollection = [] := by
  have hm : s0.mode ≠ KINECT_MODE_IDLE := by
    rcases hmode with ⟨h, _⟩ | ⟨h, _⟩ <;> simp [h]
  have hthr : acts.length ≤ needStackedCnt s0.mode := by
    rcases hmode with ⟨h, hn⟩ | ⟨h, hn⟩ <;> simp [needStackedCnt, h] <;> omega
  obtain ⟨a1, a2, a3, a4, a5, a6, a7, _⟩ := run_active_steps e acts s0 hm hacts
  have hm1 : (s0.run e acts).mode ≠ KINECT_MODE_IDLE := by rw [a1]; exact hm
  have hlen1 : (s0.run e acts).frameCollection.length ≤ needStackedCnt (s0.run e acts).mode := by
    rw [a1, a3, hF]; simpa using hthr
  obtain ⟨b1, b2, b3, b4, b5, b6⟩ := tick_inactive_short e (s0.run e acts) stop hm1 hstop hlen1
  have hfin : (s0.run e (acts ++ [stop])).saveLog = s0.saveLog ∧
      (s0.run e (acts ++ [stop])).recorded = s0.recorded := by
    rw [run_snoc, b5, b6, a6, a7]; exact ⟨rfl, rfl⟩
  refine ⟨?_, ?_, ?_, ?_, ?_⟩
  · intro k
    by_cases hk : k ≤ acts.length
    · rw [List.take_append_of_le_length hk]
      obtain ⟨_, _, _, _, _, c6, c7, _⟩ :=
        run_active_steps e (acts.take k) s0 hm (fun i hi => hacts i (List.mem_of_mem_take hi))
      exact ⟨c6, c7⟩
    · have hall : (acts ++ [stop]).take k = acts ++ [stop] :=
        List.take_of_length_le (by simp; omega)
      rw [hall]; exact hfin
  · rw [run_snoc]; exact b1
  · rw [run_snoc, b2]
    cases acts with
    | nil => simp [Kinect.run, hF]
    | cons i rest => simp [a2]
  · rw [run_snoc, b3]
    cases acts with
    | nil => simp [Kinect.run, hL]
    | cons i rest => simp [a2]
  · rw [run_snoc, b4]
    cases acts with
    | nil => simp [Kinect.run, hR]
    | cons i rest => simp [a2]

/-- Witness for C5: 10 ticks with a hand raised, then both hands down, in Output mode
(threshold 35). -/
theorem short_session_no_export_witness :
    (∀ k : Nat,
      ((startKinect KINECT_MODE_OUTPUT).run sampleEnv
          ((handUpFor 10 ++ [handsDown 10]).take k)).saveLog = [] ∧
      ((startKinect KINECT_MODE_OUTPUT).run sampleEnv
          ((handUpFor 10 ++ [handsDown 10]).take k)).recorded = 0) ∧
    ((startKinect KINECT_MODE_OUTPUT).run sampleEnv
        (handUpFor 10 ++ [handsDown 10])).frameStacking = false ∧
    ((startKinect KINECT_MODE_OUTPUT).run sampleEnv
        (handUpFor 10 ++ [handsDown 10])).frameCollection = [] ∧
    ((startKinect KINECT_MODE_OUTPUT).run sampleEnv
        (handUpFor 10 ++ [handsDown 10])).lhandCollection = [] ∧
    ((startKinect KINECT_MODE_OUTPUT).run sampleEnv
        (handUpFor 10 ++ [handsDown 10])).rhandCollection = [] :=
  short_session_no_export sampleEnv (startKinect KINECT_MODE_OUTPUT) (handUpFor 10)
    (handsDown 10) (Or.inl ⟨rfl, by decide⟩) rfl rfl rfl rfl
    (handUpFor_active 10) rfl

/-- C6: in Output mode, a run that starts idle with empty collections, sees 60 ticks
with a hand active and then one tick with both hands inactive, and whose
standardisation brings each collection to its target length, calls `save` exactly
once, on the last tick and with `isSending = false`; the `recorded` counter ends one
higher and the machine ends idle with the three collections empty. -/
theorem long_session_exported_once (e : Env) (s0 : Kinect) (acts : List TickInput)
    (stop : TickInput)
    (hmode : s0.mode = KINECT_MODE_OUTPUT)
    (_hidle : s0.frameStacking = false)
    (hF : s0.frameCollection = []) (hL : s0.lhandCollection = [])
    (hR : s0.rhandCollection = [])
    (hlen : acts.length = 60)
    (hacts : ∀ i ∈ acts, i.active = true) (hstop : stop.active = false)
    (hstdF : ∀ (t : Int) (l : List Frame), l.length = 60 →
      (e.frameSetStandard t l).length = e.FRAME_STANDARD_SIZE)
    (hstdL : ∀ (t : Int) (l : List ImageFrame), l.length = 60 →
      (e.lhandSetStandard t l).length = e.IMAEG_STANDARD_FRAME_SIZE)
    (hstdR : ∀ (t : Int) (l : List ImageFrame), l.length = 60 →
      (e.rhandSetStandard t l).length = e.IMAEG_STANDARD_FRAME_SIZE) :
    (∀ k : Nat, k ≤ 60 → (s0.run e ((acts ++ [stop]).take k)).saveLog = s0.saveLog) ∧
    (∃ c : SaveCall, (s0.run e (acts ++ [stop])).saveLog = s0.saveLog ++ [c] ∧
        c.isSending = false ∧ c.frames.length = e.FRAME_STANDARD_SIZE ∧
        c.lhand.length = e.IMAEG_STANDARD_FRAME_SIZE ∧
        c.rhand.length = e.IMAEG_STANDARD_FRAME_SIZE) ∧
    (s0.run e (acts ++ [stop])).recorded = s0.recorded + 1 ∧
    (s0.run e (acts ++ [stop])).frameStacking = false ∧
    (s0.run e (acts ++ [stop])).frameCollection = [] ∧
    (s0.run e (acts ++ [stop])).lhandCollection = [] ∧
    (s0.run e (acts ++ [stop])).rhandCollection = [] := by
  have hm : s0.mode ≠ KINECT_MODE_IDLE := by simp [hmode]
  obtain ⟨a1, a2, a3, a4, a5, a6, a7, _⟩ := run_active_steps e acts s0 hm hacts
  have hne : acts.isEmpty = false := by
    cases acts with
    | nil => simp at hlen
    | cons i rest => rfl
  have hs1 : (s0.run e acts).frameStacking = true := by rw [a2, hne]; rfl
  have hF1 : (s0.run e acts).frameCollection.length = 60 := by rw [a3, hF, hlen]; rfl
  have hL1 : (s0.run e acts).lhandCollection.length = 60 := by rw [a4, hL, hlen]; rfl
  have hR1 : (s0.run e acts).rhandCollection.length = 60 := by rw [a5, hR, hlen]; rfl
  obtain ⟨b1, b2, b3, b4, b5, b6⟩ :=
    tick_inactive_export_output e (s0.run e acts) stop (by rw [a1, hmode]) hs1 hstop
      (by rw [hF1]; decide) (hstdF _ _ hF1) (hstdR _ _ hR1)
  refine ⟨?_, ⟨_, by rw [run_snoc, b1, a6], rfl, hstdF _ _ hF1, hstdL _ _ hL1,
    hstdR _ _ hR1⟩, by rw [run_snoc, b2, a7], by rw [run_snoc, b3], by rw [run_snoc, b4],
    by rw [run_snoc, b5], by rw [run_snoc, b6]⟩
  intro k hk
  rw [List.take_append_of_le_length (by omega)]
  obtain ⟨_, _, _, _, _, c6, _, _⟩ :=
    run_active_steps e (acts.take k) s0 hm (fun i hi => hacts i (List.mem_of_mem_take hi))
  exact c6

/-- Witness for C6: 60 ticks with a hand raised, then both hands down, in Output mode,
with standardisation that keeps the first 35 samples. -/
theorem long_session_exported_once_witness :
    (∀ k : Nat, k ≤ 60 →
      ((startKinect KINECT_MODE_OUTPUT).run sampleEnv
        ((handUpFor 60 ++ [handsDown 60]).take k)).saveLog = []) ∧
    (∃ c : SaveCall,
      ((startKinect KINECT_MODE_OUTPUT).run sampleEnv
        (handUpFor 60 ++ [handsDown 60])).saveLog = [] ++ [c] ∧
      c.isSending = false ∧ c.frames.length = 35 ∧ c.lhand.length = 35 ∧
      c.rhand.length = 35) ∧
    ((startKinect KINECT_MODE_OUTPUT).run sampleEnv
        (handUpFor 60 ++ [handsDown 60])).recorded = 0 + 1 ∧
    ((startKinect KINECT_MODE_OUTPUT).run sampleEnv
        (handUpFor 60 ++ [handsDown 60])).frameStacking = false ∧
    ((startKinect KINECT_MODE_OUTPUT).run sampleEnv
        (handUpFor 60 ++ [handsDown 60])).frameCollection = [] ∧
    ((startKinect KINECT_MODE_OUTPUT).run sampleEnv
        (handUpFor 60 ++ [handsDown 60])).lhandCollection = [] ∧
    ((startKinect KINECT_MODE_OUTPUT).run sampleEnv
        (handUpFor 60 ++ [handsDown 60])).rhandCollection = [] :=
  long_session_exported_once sampleEnv (startKinect KINECT_MODE_OUTPUT) (handUpFor 60)
    (handsDown 60) rfl rfl rfl rfl rfl (by decide) (handUpFor_active 60) rfl
    (fun _ l h => by simp [sampleEnv, List.length_take, h])
    (fun _ l h => by simp [sampleEnv, List.length_take, h])
    (fun _ l h => by simp [sampleEnv, List.length_take, h])

/-- C7 (counterexample): on `roundedSumKinect` the wrist, the spine base and `spinePx`
are `float` values (binary32 rounding leaves them as they are) and the left wrist is
above `spineBase.Y + spinePx / 2` by `ε = 2^(-27) > 0`; the `float` sum of line 372
rounds up to the wrist's own Y, the strict comparison fails and the left flag is set
to false. -/
theorem float_sum_hides_raised_wrist :
    roundBinary32 (roundedSumKinect.sPoints SPOINT_BODY_WRIST_LEFT).Y =
      (roundedSumKinect.sPoints SPOINT_BODY_WRIST_LEFT).Y ∧
    roundBinary32 (roundedSumKinect.sPoints SPOINT_BODY_SPINE_BASE).Y =
      (roundedSumKinect.sPoints SPOINT_BODY_SPINE_BASE).Y ∧
    roundBinary32 roundedSumKinect.spinePx = roundedSumKinect.spinePx ∧
    (roundedSumKinect.sPoints SPOINT_BODY_WRIST_LEFT).Y =
      (roundedSumKinect.sPoints SPOINT_BODY_SPINE_BASE).Y + roundedSumKinect.spinePx / 2 +
        1 / 2 ^ 27 ∧
    (0 : ℚ) < 1 / 2 ^ 27 ∧
    sampleEnv.fl ((roundedSumKinect.sPoints SPOINT_BODY_SPINE_BASE).Y +
        sampleEnv.fl (roundedSumKinect.spinePx / 2)) =
      (roundedSumKinect.sPoints SPOINT_BODY_WRIST_LEFT).Y ∧
    (roundedSumKinect.updateHandActivation sampleEnv).leftHandActivated = false := by
  refine ⟨by decide!, by decide!, by decide!, by decide!, by decide!, by decide!, ?_⟩
  rw [updateHandActivation_left]
  decide!

/-- C7 (amended): the hand-activation step of `updateBody` sets each flag to true
exactly when that hand's wrist Y is strictly above the threshold as the program
computes it, in `float` arithmetic: `fl (spineBase.Y + fl (spinePx / 2))`. Each flag
is determined by its own wrist's Y, the spine-base Y and `spinePx` alone (two states
that agree on these three get the same flag, whatever the other wrist, the X and Z
coordinates and the previous flags are), and for `wristY = t + ε`, with `t` that
computed threshold, the flag is true for `ε > 0` and false for `ε ≤ 0`. -/
theorem updateHandActivation_threshold (e : Env) (s : Kinect) :
    ((s.updateHandActivation e).leftHandActivated = true ↔
      (s.sPoints SPOINT_BODY_WRIST_LEFT).Y >
        e.fl ((s.sPoints SPOINT_BODY_SPINE_BASE).Y + e.fl (s.spinePx / 2))) ∧
    ((s.updateHandActivation e).rightHandActivated = true ↔
      (s.sPoints SPOINT_BODY_WRIST_RIGHT).Y >
        e.fl ((s.sPoints SPOINT_BODY_SPINE_BASE).Y + e.fl (s.spinePx / 2))) ∧
    (∀ t : Kinect,
      (t.sPoints SPOINT_BODY_WRIST_LEFT).Y = (s.sPoints SPOINT_BODY_WRIST_LEFT).Y →
      (t.sPoints SPOINT_BODY_SPINE_BASE).Y = (s.sPoints SPOINT_BODY_SPINE_BASE).Y →
      t.spinePx = s.spinePx →
      (t.updateHandActivation e).leftHandActivated =
        (s.updateHandActivation e).leftHandActivated) ∧
    (∀ t : Kinect,
      (t.sPoints SPOINT_BODY_WRIST_RIGHT).Y = (s.sPoints SPOINT_BODY_WRIST_RIGHT).Y →
      (t.sPoints SPOINT_BODY_SPINE_BASE).Y = (s.sPoints SPOINT_BODY_SPINE_BASE).Y →
      t.spinePx = s.spinePx →
      (t.updateHandActivation e).rightHandActivated =
        (s.updateHandActivation e).rightHandActivated) ∧
    (∀ ε : ℚ,
      (s.sPoints SPOINT_BODY_WRIST_LEFT).Y =
        e.fl ((s.sPoints SPOINT_BODY_SPINE_BASE).Y + e.fl (s.spinePx / 2)) + ε →
      (0 < ε → (s.updateHandActivation e).leftHandActivated = true) ∧
      (ε ≤ 0 → (s.updateHandActivation e).leftHandActivated = false)) ∧
    (∀ ε : ℚ,
      (s.sPoints SPOINT_BODY_WRIST_RIGHT).Y =
        e.fl ((s.sPoints SPOINT_BODY_SPINE_BASE).Y + e.fl (s.spinePx / 2)) + ε →
      (0 < ε → (s.updateHandActivation e).rightHandActivated = true) ∧
      (ε ≤ 0 → (s.updateHandActivation e).rightHandActivated = false)) := by
  have hL := updateHandActivation_left e
  have hR := updateHandActivation_right e
  refine ⟨by rw [hL]; simp, by rw [hR]; simp, ?_, ?_, ?_, ?_⟩
  · intro t h1 h2 h3
    rw [hL, hL, h1, h2, h3]
  · intro t h1 h2 h3
    rw [hR, hR, h1, h2, h3]
  · intro ε h
    rw [hL, h]
    constructor
    · intro hε; simp; linarith
    · intro hε; simp; linarith
  · intro ε h
    rw [hR, h]
    constructor
    · intro hε; simp; linarith
    · intro hε; simp; linarith

/-- C8: in Off mode (`KINECT_MODE_IDLE`) `updateFrame` changes nothing: the state
after the call, with `frameStacking`, `recordStartTime`, the three collections, the
`recorded` counter and the trace of `save` calls, is the state before it, for every
combination of hand-activation flags. -/
theorem updateFrame_off_mode (e : Env) (s : Kinect) (hmode : s.mode = KINECT_MODE_IDLE) :
    s.updateFrame e = s := by
  simp [Kinect.updateFrame, hmode]

/-- Witness for C8: the fresh recorder in Off mode on a tick with the right hand raised. -/
theorem updateFrame_off_mode_witness :
    ((startKinect KINECT_MODE_IDLE).sense (handUp 7)).mode = KINECT_MODE_IDLE ∧
    ((startKinect KINECT_MODE_IDLE).sense (handUp 7)).updateFrame sampleEnv =
      (startKinect KINECT_MODE_IDLE).sense (handUp 7) :=
  ⟨rfl, updateFrame_off_mode sampleEnv ((startKinect KINECT_MODE_IDLE).sense (handUp 7)) rfl⟩

/-- C9 (counterexample): on `lostBodyKinect` no body is tracked, both flags are false
and the machine is idle with empty collections; yet the activation step of `updateBody`
recomputes the left flag to true, `extractHand` returns without a change, and
`updateFrame`, run after it, starts a session and appends one sample to each
collection. (`updateHDFace` and `updateSPoint`, which run in between, write neither the
flags nor any recording member.) -/
theorem no_body_tick_still_records :
    lostBodyKinect.atLeastOneTracked = false ∧
    lostBodyKinect.leftHandActivated = false ∧
    lostBodyKinect.frameStacking = false ∧
    lostBodyKinect.frameCollection.length = 0 ∧
    (lostBodyKinect.updateHandActivation sampleEnv).leftHandActivated = true ∧
    (lostBodyKinect.updateHandActivation sampleEnv).extractHand sampleEnv =
      some (lostBodyKinect.updateHandActivation sampleEnv) ∧
    ((lostBodyKinect.updateHandActivation sampleEnv).updateFrame
        sampleEnv).frameStacking = true ∧
    ((lostBodyKinect.updateHandActivation sampleEnv).updateFrame
        sampleEnv).frameCollection.length = 1 ∧
    ((lostBodyKinect.updateHandActivation sampleEnv).updateFrame
        sampleEnv).lhandCollection.length = 1 ∧
    ((lostBodyKinect.updateHandActivation sampleEnv).updateFrame
        sampleEnv).rhandCollection.length = 1 := by
  rw [lostBody_activation]
  exact ⟨rfl, rfl, rfl, rfl, rfl, rfl, rfl, rfl, rfl, rfl⟩

/-- C9 (amended): on a tick with no body tracked `extractHand` returns at once and
changes nothing, so both hand crops stay as they were; the activation step of
`updateBody` still recomputes both flags from the landmark table, each to the outcome
of the `float` comparison `wrist.Y > fl (spineBase.Y + fl (spinePx / 2))` (and leaves
`atLeastOneTracked` false); and `updateFrame` does on that state exactly what it does
on the same state with a tracked body, the two results differing in the carried
`atLeastOneTracked` only. -/
theorem no_body_tick_behaviour (e : Env) (s : Kinect) (h : s.atLeastOneTracked = false) :
    s.extractHand e = some s ∧
    ((s.updateHandActivation e).leftHandActivated = true ↔
      (s.sPoints SPOINT_BODY_WRIST_LEFT).Y >
        e.fl ((s.sPoints SPOINT_BODY_SPINE_BASE).Y + e.fl (s.spinePx / 2))) ∧
    ((s.updateHandActivation e).rightHandActivated = true ↔
      (s.sPoints SPOINT_BODY_WRIST_RIGHT).Y >
        e.fl ((s.sPoints SPOINT_BODY_SPINE_BASE).Y + e.fl (s.spinePx / 2))) ∧
    (s.updateHandActivation e).atLeastOneTracked = false ∧
    ({ s with atLeastOneTracked := true } : Kinect).updateFrame e =
      { s.updateFrame e with atLeastOneTracked := true } := by
  have hx : s.extractHand e = some s := by simp [Kinect.extractHand, h]
  refine ⟨hx, ?_, ?_, ?_, updateFrame_ignores_tracking e s true⟩
  · rw [updateHandActivation_left]; simp
  · rw [updateHandActivation_right]; simp
  · unfold Kinect.updateHandActivation
    by_cases h1 : (s.sPoints SPOINT_BODY_WRIST_LEFT).Y >
        e.fl ((s.sPoints SPOINT_BODY_SPINE_BASE).Y + e.fl (s.spinePx / 2)) <;>
      by_cases h2 : (s.sPoints SPOINT_BODY_WRIST_RIGHT).Y >
        e.fl ((s.sPoints SPOINT_BODY_SPINE_BASE).Y + e.fl (s.spinePx / 2)) <;>
      simp [h1, h2, h]

/-- Witness for C9 (amended), at `lostBodyKinect`. -/
theorem no_body_tick_behaviour_witness :
    lostBodyKinect.atLeastOneTracked = false ∧
    lostBodyKinect.extractHand sampleEnv = some lostBodyKinect ∧
    ((lostBodyKinect.updateHandActivation sampleEnv).leftHandActivated = true ↔
      (lostBodyKinect.sPoints SPOINT_BODY_WRIST_LEFT).Y >
        sampleEnv.fl ((lostBodyKinect.sPoints SPOINT_BODY_SPINE_BASE).Y +
          sampleEnv.fl (lostBodyKinect.spinePx / 2))) ∧
    ({ lostBodyKinect with atLeastOneTracked := true } : Kinect).updateFrame sampleEnv =
      { lostBodyKinect.updateFrame sampleEnv with atLeastOneTracked := true } :=
  ⟨rfl, (no_body_tick_behaviour sampleEnv lostBodyKinect rfl).1,
    (no_body_tick_behaviour sampleEnv lostBodyKinect rfl).2.1,
    (no_body_tick_behaviour sampleEnv lostBodyKinect rfl).2.2.2.2⟩

/-- C11 (counterexample): in `hiddenHeadBodies` the ids 5 and 7 are distinct, the fresh
recorder stores an id that no body carries, and the body at index 1 is tracked with a
tracked head; both bodies are tracked and the head of the body at index 0 is nearer
(distance 1 against 2), but its head joint is not tracked, so `findClosestBody` ends
with `trackingCount = 1` and `trackingId = 7`: not a tracked body at minimum head
distance among all tracked bodies. -/
theorem closest_tracked_body_not_selected :
    (sampleBody true TrackingState_NotTracked 1 5).TrackingId ≠
      (sampleBody true TrackingState_Tracked 2 7).TrackingId ∧
    (startKinect KINECT_MODE_OUTPUT).trackingId ≠ 5 ∧
    (startKinect KINECT_MODE_OUTPUT).trackingId ≠ 7 ∧
    hiddenHeadBodies[0]? = some (sampleBody true TrackingState_NotTracked 1 5) ∧
    hiddenHeadBodies[1]? = some (sampleBody true TrackingState_Tracked 2 7) ∧
    (sampleBody true TrackingState_NotTracked 1 5).IsTracked = true ∧
    (sampleBody true TrackingState_Tracked 2 7).IsTracked = true ∧
    (sampleBody true TrackingState_Tracked 2 7).head.TrackingState = TrackingState_Tracked ∧
    headDistance sampleEnv (sampleBody true TrackingState_NotTracked 1 5) <
      headDistance sampleEnv (sampleBody true TrackingState_Tracked 2 7) ∧
    ((startKinect KINECT_MODE_OUTPUT).findClosestBody sampleEnv
      hiddenHeadBodies).trackingCount = 1 ∧
    ((startKinect KINECT_MODE_OUTPUT).findClosestBody sampleEnv
      hiddenHeadBodies).trackingId = 7 := by
  have h := findClosestBody_selects sampleEnv hiddenHeadBodies (startKinect KINECT_MODE_OUTPUT)
    1 _ hiddenHead_selected (distinctCandidateIds_pair _ _ (by decide))
    (storedPairConsistent_of_absent _ _ (by decide))
  refine ⟨by decide, by decide, by decide, rfl, rfl, rfl, rfl, rfl, ?_, h.2.2.2, h.2.2.1⟩
  rw [headDistance_sampleBody, headDistance_sampleBody]
  norm_num

/-- C11 (amended): if some body is tracked with a tracked head joint (and a head
distance below `FLT_MAX`), the tracking ids of such bodies are pairwise distinct and
the stored pair is consistent with them, then after `findClosestBody` `trackingCount`
is the index of a tracked body with a tracked head whose head distance is minimal
among the tracked bodies with a tracked head, and `trackingId` is that body's id. -/
theorem findClosestBody_selects_closest (e : Env) (bodies : List Body) (s : Kinect)
    (hex : ∃ b ∈ bodies, b.candidate = true ∧ headDistance e b < FLT_MAX)
    (hdist : distinctCandidateIds bodies) (hcons : storedPairConsistent bodies s) :
    ∃ b : Body, bodies[(s.findClosestBody e bodies).trackingCount]? = some b ∧
      b.IsTracked = true ∧ b.head.TrackingState ≠ TrackingState_NotTracked ∧
      (∀ b' ∈ bodies, b'.candidate = true → headDistance e b ≤ headDistance e b') ∧
      (s.findClosestBody e bodies).trackingId = b.TrackingId := by
  rcases findClosestBody_result e bodies s with ⟨hno, _⟩ | ⟨m, b, hsel, _⟩
  · obtain ⟨b, hb, hc, hd⟩ := hex
    exact absurd hd (not_lt.mpr (hno b hb hc))
  · obtain ⟨_, _, r3, r4⟩ := findClosestBody_selects e bodies s m b hsel hdist hcons
    have hc := hsel.2.1
    simp only [Body.candidate, Bool.and_eq_true, decide_eq_true_eq] at hc
    exact ⟨b, by rw [r4]; exact hsel.1, hc.1, hc.2, hsel.2.2.2.1, r3⟩

/-- Witness for C11 (amended), at `hiddenHeadBodies` and the fresh recorder. -/
theorem findClosestBody_selects_closest_witness :
    (∃ b ∈ hiddenHeadBodies, b.candidate = true ∧ headDistance sampleEnv b < FLT_MAX) ∧
    ∃ b : Body,
      hiddenHeadBodies[((startKinect KINECT_MODE_OUTPUT).findClosestBody sampleEnv
        hiddenHeadBodies).trackingCount]? = some b ∧
      b.IsTracked = true ∧ b.head.TrackingState ≠ TrackingState_NotTracked ∧
      (∀ b' ∈ hiddenHeadBodies, b'.candidate = true →
        headDistance sampleEnv b ≤ headDistance sampleEnv b') ∧
      ((startKinect KINECT_MODE_OUTPUT).findClosestBody sampleEnv
        hiddenHeadBodies).trackingId = b.TrackingId :=
  ⟨⟨_, List.getElem?_mem hiddenHead_selected.1, hiddenHead_selected.2.1,
      hiddenHead_selected.2.2.1⟩,
    findClosestBody_selects_closest sampleEnv hiddenHeadBodies (startKinect KINECT_MODE_OUTPUT)
      ⟨_, List.getElem?_mem hiddenHead_selected.1, hiddenHead_selected.2.1,
        hiddenHead_selected.2.2.1⟩
      (distinctCandidateIds_pair _ _ (by decide))
      (storedPairConsistent_of_absent _ _ (by decide))⟩

/-- C12 (counterexample): the only body of `hiddenHeadOnly` is tracked, but its head
joint is not, and `findClosestBody` leaves `atLeastOneTracked` false. -/
theorem tracked_body_not_counted :
    hiddenHeadOnly = [sampleBody true TrackingState_NotTracked 1 5] ∧
    (sampleBody true TrackingState_NotTracked 1 5).IsTracked = true ∧
    ((startKinect KINECT_MODE_OUTPUT).findClosestBody sampleEnv
      hiddenHeadOnly).atLeastOneTracked = false :=
  ⟨rfl, rfl, rfl⟩

/-- C12 (amended): after `findClosestBody`, `atLeastOneTracked` is true exactly when
some body is tracked with a tracked head joint and a head distance below `FLT_MAX`;
when it is true, `distance` is the head distance of such a body and is minimal among
the tracked bodies with a tracked head; when it is false, `distance` keeps its
previous value. -/
theorem findClosestBody_atLeastOneTracked (e : Env) (bodies : List Body) (s : Kinect) :
    ((s.findClosestBody e bodies).atLeastOneTracked = true ↔
      ∃ b ∈ bodies, b.candidate = true ∧ headDistance e b < FLT_MAX) ∧
    ((s.findClosestBody e bodies).atLeastOneTracked = true →
      (∃ b ∈ bodies, b.candidate = true ∧
        (s.findClosestBody e bodies).distance = headDistance e b) ∧
      ∀ b ∈ bodies, b.candidate = true →
        (s.findClosestBody e bodies).distance ≤ headDistance e b) ∧
    ((s.findClosestBody e bodies).atLeastOneTracked = false →
      (s.findClosestBody e bodies).distance = s.distance) := by
  rcases findClosestBody_result e bodies s with ⟨hno, r1, r2, _⟩ | ⟨m, b, hsel, r1, r2, _⟩
  · refine ⟨⟨fun h => ?_, fun ⟨b, hb, hc, hd⟩ => absurd hd (not_lt.mpr (hno b hb hc))⟩,
      fun h => ?_, fun _ => r2⟩
    · rw [r1] at h; cases h
    · rw [r1] at h; cases h
  · refine ⟨⟨fun _ => ⟨b, List.getElem?_mem hsel.1, hsel.2.1, hsel.2.2.1⟩, fun _ => r1⟩,
      fun _ => ⟨⟨b, List.getElem?_mem hsel.1, hsel.2.1, r2⟩, fun b' hb' hc' => ?_⟩,
      fun h => ?_⟩
    · rw [r2]; exact hsel.2.2.2.1 b' hb' hc'
    · rw [r1] at h; cases h

/-- C13 (counterexample): in `tiedBodies` both bodies are tracked with tracked heads at
the same, minimal, head distance 2; `trackingSecond` stores the pair of the body at
index 1 (id 9). After `findClosestBody` the pair is that of the body at index 0
(id 7): the tie is not kept with the previously selected body. -/
theorem tie_moves_to_lower_index :
    tiedBodies[trackingSecond.trackingCount]? =
      some (sampleBody true TrackingState_Tracked 2 9) ∧
    (sampleBody true TrackingState_Tracked 2 9).TrackingId = trackingSecond.trackingId ∧
    (sampleBody true TrackingState_Tracked 2 9).IsTracked = true ∧
    tiedBodies[0]? = some (sampleBody true TrackingState_Tracked 2 7) ∧
    headDistance sampleEnv (sampleBody true TrackingState_Tracked 2 9) =
      headDistance sampleEnv (sampleBody true TrackingState_Tracked 2 7) ∧
    trackingSecond.trackingCount = 1 ∧ trackingSecond.trackingId = 9 ∧
    (trackingSecond.findClosestBody sampleEnv tiedBodies).trackingCount = 0 ∧
    (trackingSecond.findClosestBody sampleEnv tiedBodies).trackingId = 7 := by
  have h := findClosestBody_selects sampleEnv tiedBodies trackingSecond 0 _ tied_selected
    (distinctCandidateIds_pair _ _ (by decide)) trackingSecond_consistent
  refine ⟨rfl, rfl, rfl, rfl, ?_, rfl, rfl, h.2.2.2, h.2.2.1⟩
  rw [headDistance_sampleBody, headDistance_sampleBody]

/-- C13 (amended): ties go to the body with the lowest index. Let the body stored as
selected (carrying the stored `trackingId`, at index `trackingCount`) be tracked with
a tracked head at a head distance (below `FLT_MAX`) that is minimal among the tracked
bodies with a tracked head, let the ids of such bodies be pairwise distinct, and let
`m` be the lowest index of such a body at that same distance. Then after
`findClosestBody` `trackingCount` is `m` and `trackingId` is the id of the body at
index `m`; `m` is not above the stored index; if `m` is the stored index,
`trackingCount` and `trackingId` are the same after the call as before it; and if
`m` is below the stored index, both have changed. -/
theorem findClosestBody_tie_keeps_first (e : Env) (bodies : List Body) (s : Kinect)
    (p : Body) (m : Nat) (b : Body)
    (hp : bodies[s.trackingCount]? = some p) (hid : p.TrackingId = s.trackingId)
    (hc : p.candidate = true) (hmax : headDistance e p < FLT_MAX)
    (hmin : ∀ b' ∈ bodies, b'.candidate = true → headDistance e p ≤ headDistance e b')
    (hb : bodies[m]? = some b) (hbc : b.candidate = true)
    (htie : headDistance e b = headDistance e p)
    (hfirst : ∀ (j : Nat) (b' : Body), j < m → bodies[j]? = some b' →
      b'.candidate = true → headDistance e b' ≠ headDistance e p)
    (hdist : distinctCandidateIds bodies) :
    (s.findClosestBody e bodies).trackingCount = m ∧
    (s.findClosestBody e bodies).trackingId = b.TrackingId ∧
    m ≤ s.trackingCount ∧
    (m = s.trackingCount →
      (s.findClosestBody e bodies).trackingCount = s.trackingCount ∧
      (s.findClosestBody e bodies).trackingId = s.trackingId) ∧
    (m < s.trackingCount →
      (s.findClosestBody e bodies).trackingCount ≠ s.trackingCount ∧
      (s.findClosestBody e bodies).trackingId ≠ s.trackingId) := by
  have hcons : storedPairConsistent bodies s := by
    intro i b' hb' hcb hib
    exact hdist _ _ p b' hp hb' hc hcb (by rw [hid, hib])
  have hsel : selectedAt e bodies m b := by
    refine ⟨hb, hbc, by rw [htie]; exact hmax, fun b' hb' hc' => ?_,
      fun j b' hj hjb hcb => ?_⟩
    · rw [htie]; exact hmin b' hb' hc'
    · rw [htie]
      exact lt_of_le_of_ne (hmin b' (List.getElem?_mem hjb) hcb)
        (fun h => hfirst j b' hj hjb hcb h.symm)
  obtain ⟨_, _, r3, r4⟩ := findClosestBody_selects e bodies s m b hsel hdist hcons
  have hle : m ≤ s.trackingCount := by
    by_contra hlt
    exact hfirst s.trackingCount p (by omega) hp hc rfl
  refine ⟨r4, r3, hle, fun hm => ?_, fun hm => ?_⟩
  · subst hm
    have hbp : b = p := Option.some.inj (hb.symm.trans hp)
    exact ⟨r4, by rw [r3, hbp, hid]⟩
  · refine ⟨by rw [r4]; omega, fun h => ?_⟩
    have hmm : m = s.trackingCount :=
      hdist m s.trackingCount b p hb hp hbc hc (by rw [← r3, h, hid])
    omega

/-- Witness for C13 (amended): in `tiedBodies` with the stored pair of the body at
index 1 (id 9), the lowest index at the shared distance is 0 and the pair becomes
that of the body at index 0 (id 7). -/
theorem findClosestBody_tie_keeps_first_witness :
    tiedBodies[trackingSecond.trackingCount]? =
      some (sampleBody true TrackingState_Tracked 2 9) ∧
    tiedBodies[0]? = some (sampleBody true TrackingState_Tracked 2 7) ∧
    (trackingSecond.findClosestBody sampleEnv tiedBodies).trackingCount = 0 ∧
    (trackingSecond.findClosestBody sampleEnv tiedBodies).trackingId =
      (sampleBody true TrackingState_Tracked 2 7).TrackingId ∧
    (trackingSecond.findClosestBody sampleEnv tiedBodies).trackingCount ≠
      trackingSecond.trackingCount :=
  ⟨rfl, rfl,
    (findClosestBody_tie_keeps_first sampleEnv tiedBodies trackingSecond
      (sampleBody true TrackingState_Tracked 2 9) 0
      (sampleBody true TrackingState_Tracked 2 7) rfl rfl rfl
      (by rw [headDistance_sampleBody]; exact_mod_cast two_lt_FLT_MAX)
      (fun b' hb' _ => by
        simp only [tiedBodies, List.mem_cons, List.mem_singleton, List.not_mem_nil,
          or_false] at hb'
        rcases hb' with hb' | hb' <;> simp [hb', headDistance_sampleBody])
      rfl rfl (by rw [headDistance_sampleBody, headDistance_sampleBody])
      (fun j _ hj _ _ => absurd hj (Nat.not_lt_zero j))
      (distinctCandidateIds_pair _ _ (by decide))).1,
    (findClosestBody_tie_keeps_first sampleEnv tiedBodies trackingSecond
      (sampleBody true TrackingState_Tracked 2 9) 0
      (sampleBody true TrackingState_Tracked 2 7) rfl rfl rfl
      (by rw [headDistance_sampleBody]; exact_mod_cast two_lt_FLT_MAX)
      (fun b' hb' _ => by
        simp only [tiedBodies, List.mem_cons, List.mem_singleton, List.not_mem_nil,
          or_false] at hb'
        rcases hb' with hb' | hb' <;> simp [hb', headDistance_sampleBody])
      rfl rfl (by rw [headDistance_sampleBody, headDistance_sampleBody])
      (fun j _ hj _ _ => absurd hj (Nat.not_lt_zero j))
      (distinctCandidateIds_pair _ _ (by decide))).2.1,
    ((findClosestBody_tie_keeps_first sampleEnv tiedBodies trackingSecond
      (sampleBody true TrackingState_Tracked 2 9) 0
      (sampleBody true TrackingState_Tracked 2 7) rfl rfl rfl
      (by rw [headDistance_sampleBody]; exact_mod_cast two_lt_FLT_MAX)
      (fun b' hb' _ => by
        simp only [tiedBodies, List.mem_cons, List.mem_singleton, List.not_mem_nil,
          or_false] at hb'
        rcases hb' with hb' | hb' <;> simp [hb', headDistance_sampleBody])
      rfl rfl (by rw [headDistance_sampleBody, headDistance_sampleBody])
      (fun j _ hj _ _ => absurd hj (Nat.not_lt_zero j))
      (distinctCandidateIds_pair _ _ (by decide))).2.2.2.2 (by decide)).1⟩

/-- C14: if the body that `findClosestBody` selects (the first, in index order, of the
tracked bodies with a tracked head at minimal head distance) carries an id different
from the `trackingId` stored before the call, then during the call `put_TrackingId`
is called, the last time with that id, the stored `trackingId` becomes that id and
`produced` is false afterwards. -/
theorem findClosestBody_rebinds (e : Env) (bodies : List Body) (s : Kinect) (m : Nat)
    (b : Body) (hb : bodies[m]? = some b) (hc : b.candidate = true)
    (hmax : headDistance e b < FLT_MAX)
    (hmin : ∀ b' ∈ bodies, b'.candidate = true → headDistance e b ≤ headDistance e b')
    (hfirst : ∀ (j : Nat) (b' : Body), j < m → bodies[j]? = some b' →
      b'.candidate = true → headDistance e b < headDistance e b')
    (hne : b.TrackingId ≠ s.trackingId) :
    (∃ l, (s.findClosestBody e bodies).faceTrackingIds = s.faceTrackingIds ++ l ∧
      l.getLast? = some b.TrackingId) ∧
    (s.findClosestBody e bodies).trackingId = b.TrackingId ∧
    (s.findClosestBody e bodies).produced = false :=
  selected_body_rebinds e bodies s m b ⟨hb, hc, hmax, hmin, hfirst⟩ hne

/-- Witness for C14: `tiedBodies` with the stored pair of the body at index 1; the
selected body is the one at index 0 with id 7. -/
theorem findClosestBody_rebinds_witness :
    trackingSecond.trackingId = 9 ∧ trackingSecond.produced = true ∧
    (∃ l, (trackingSecond.findClosestBody sampleEnv tiedBodies).faceTrackingIds =
      trackingSecond.faceTrackingIds ++ l ∧
      l.getLast? = some (sampleBody true TrackingState_Tracked 2 7).TrackingId) ∧
    (trackingSecond.findClosestBody sampleEnv tiedBodies).trackingId =
      (sampleBody true TrackingState_Tracked 2 7).TrackingId ∧
    (trackingSecond.findClosestBody sampleEnv tiedBodies).produced = false :=
  ⟨rfl, rfl, findClosestBody_rebinds sampleEnv tiedBodies trackingSecond 0
    (sampleBody true TrackingState_Tracked 2 7) rfl rfl tied_selected.2.2.1
    tied_selected.2.2.2.1 tied_selected.2.2.2.2 (by decide)⟩

/-- C15: along a run of ticks in a recording mode that starts idle with empty
collections and whose timestamps are non-decreasing, at every tick boundary the
capture times in each of the three collections are non-decreasing in insertion
order, the three collections hold the same sequence of capture times, that sequence
is empty while idle, and while stacking its first element is `recordStartTime`. -/
theorem capture_times_monotone (e : Env) (s0 : Kinect) (is : List TickInput)
    (hmode : s0.mode = KINECT_MODE_PREDICT ∨ s0.mode = KINECT_MODE_OUTPUT)
    (hidle : s0.frameStacking = false)
    (hF : s0.frameCollection = []) (hL : s0.lhandCollection = [])
    (hR : s0.rhandCollection = [])
    (hmono : (tickTimes is).Chain' (fun a c => a ≤ c)) :
    ∀ k : Nat,
      (s0.run e (is.take k)).frameTimes.Pairwise (fun a c => a ≤ c) ∧
      (s0.run e (is.take k)).lhandTimes.Pairwise (fun a c => a ≤ c) ∧
      (s0.run e (is.take k)).rhandTimes.Pairwise (fun a c => a ≤ c) ∧
      (s0.run e (is.take k)).lhandTimes = (s0.run e (is.take k)).frameTimes ∧
      (s0.run e (is.take k)).rhandTimes = (s0.run e (is.take k)).frameTimes ∧
      ((s0.run e (is.take k)).frameStacking = false →
        (s0.run e (is.take k)).frameTimes = []) ∧
      ((s0.run e (is.take k)).frameStacking = true →
        (s0.run e (is.take k)).frameTimes.head? =
          some (s0.run e (is.take k)).recordStartTime) := by
  intro k
  have hm : s0.mode ≠ KINECT_MODE_IDLE := by
    rcases hmode with h | h <;> simp [h]
  have hF0 : s0.frameTimes = [] := by simp [Kinect.frameTimes, hF]
  have hL0 : s0.lhandTimes = s0.frameTimes := by
    simp [Kinect.frameTimes, Kinect.lhandTimes, hF, hL]
  have hR0 : s0.rhandTimes = s0.frameTimes := by
    simp [Kinect.frameTimes, Kinect.rhandTimes, hF, hR]
  have hchain : (tickTimes (is.take k)).Chain' (fun a c => a ≤ c) := by
    have h := hmono.take k
    simpa [tickTimes, List.map_take] using h
  have key : (s0.run e (is.take k)).lhandTimes = (s0.run e (is.take k)).frameTimes ∧
      (s0.run e (is.take k)).rhandTimes = (s0.run e (is.take k)).frameTimes ∧
      (s0.run e (is.take k)).frameTimes.Pairwise (fun a c => a ≤ c) ∧
      ((s0.run e (is.take k)).frameStacking = false →
        (s0.run e (is.take k)).frameTimes = []) ∧
      ((s0.run e (is.take k)).frameStacking = true →
        (s0.run e (is.take k)).frameTimes.head? =
          some (s0.run e (is.take k)).recordStartTime) := by
    cases hl : is.take k with
    | nil =>
      refine ⟨hL0, hR0, ?_, fun _ => hF0, fun h => ?_⟩
      · show s0.frameTimes.Pairwise _
        rw [hF0]; exact List.Pairwise.nil
      · have h' : s0.frameStacking = true := h
        rw [hidle] at h'; cases h'
    | cons i rest =>
      rw [hl] at hchain
      refine run_times e (i :: rest) s0 i.lastFrameRelativeTime hm hL0 hR0
        (by rw [hF0]; exact List.Pairwise.nil) (by rw [hF0]; intro t ht; cases ht)
        (fun _ => hF0) (fun h => by rw [hidle] at h; cases h) ?_
      simp only [tickTimes, List.map_cons, List.chain_cons]
      exact ⟨le_refl _, hchain⟩
  obtain ⟨k1, k2, k3, k4, k5⟩ := key
  exact ⟨k3, by rw [k1]; exact k3, by rw [k2]; exact k3, k1, k2, k4, k5⟩

/-- Witness for C15: five ticks at times 0 to 4 with a hand raised, in Output mode,
observed after three of them. -/
theorem capture_times_monotone_witness :
    (tickTimes (handUpFor 5)).Chain' (fun a c => a ≤ c) ∧
    ((startKinect KINECT_MODE_OUTPUT).run sampleEnv
      ((handUpFor 5).take 3)).frameTimes.Pairwise (fun a c => a ≤ c) ∧
    ((startKinect KINECT_MODE_OUTPUT).run sampleEnv ((handUpFor 5).take 3)).lhandTimes =
      ((startKinect KINECT_MODE_OUTPUT).run sampleEnv ((handUpFor 5).take 3)).frameTimes ∧
    ((startKinect KINECT_MODE_OUTPUT).run sampleEnv ((handUpFor 5).take 3)).rhandTimes =
      ((startKinect KINECT_MODE_OUTPUT).run sampleEnv ((handUpFor 5).take 3)).frameTimes :=
  ⟨handUpFor_five_chain,
    (capture_times_monotone sampleEnv (startKinect KINECT_MODE_OUTPUT) (handUpFor 5)
      (Or.inr rfl) rfl rfl rfl rfl (handUpFor_five_chain) 3).1,
    (capture_times_monotone sampleEnv (startKinect KINECT_MODE_OUTPUT) (handUpFor 5)
      (Or.inr rfl) rfl rfl rfl rfl (handUpFor_five_chain) 3).2.2.2.1,
    (capture_times_monotone sampleEnv (startKinect KINECT_MODE_OUTPUT) (handUpFor 5)
      (Or.inr rfl) rfl rfl rfl rfl (handUpFor_five_chain) 3).2.2.2.2.1⟩

/-- C16 (evaluation of the code): for every value `R` of `PATH_DATA_FOLDER`, label,
label name, date and operator, the persisted path is the specified directory over the
root `R`, while the transient path is `R` followed directly by `temp/`, which is not
the specified `R/temp/`; no root at all fits both modes. With `R = "data"`, the root of
the comments in `save`, the transient path is `datatemp/`; with `R = "data/"` the
transient path is `data/temp/` and the persisted one starts with `data//`. -/
theorem savePath_separator_mismatch (R labelName date operator : String) (label : Int) :
    savePath R label labelName date operator false =
      persistedDirectory R label labelName date operator ∧
    savePath R label labelName date operator true = R ++ "temp/" ∧
    savePath R label labelName date operator true ≠ transientDirectory R ∧
    (¬ ∃ root : String,
      savePath R label labelName date operator false =
        persistedDirectory root label labelName date operator ∧
      savePath R label labelName date operator true = transientDirectory root) ∧
    savePath "data" 0 "hello" "20180519" "kyg" false = "data/0_hello/20180519_0_kyg/" ∧
    savePath "data" 0 "hello" "20180519" "kyg" true = "datatemp/" ∧
    savePath "data/" 0 "hello" "20180519" "kyg" false = "data//0_hello/20180519_0_kyg/" ∧
    savePath "data/" 0 "hello" "20180519" "kyg" true = "data/temp/" := by
  have hne : savePath R label labelName date operator true ≠ transientDirectory R := by
    rw [savePath_transient]
    intro h
    have h2 : R ++ "temp/" = R ++ "/temp/" := by
      rw [h]; simp [transientDirectory, String.append_assoc]
    exact absurd (string_append_left_cancel _ _ _ h2) (by decide)
  refine ⟨savePath_persisted R labelName date operator label,
    savePath_transient R labelName date operator label, hne, ?_,
    by decide, by decide, by decide, by decide⟩
  rintro ⟨root, h1, h2⟩
  rw [savePath_persisted] at h1
  have h3 : R ++ ("/" ++ toString label ++ "_" ++ labelName ++ "/" ++
      date ++ "_" ++ toString label ++ "_" ++ operator ++ "/") =
      root ++ ("/" ++ toString label ++ "_" ++ labelName ++ "/" ++
      date ++ "_" ++ toString label ++ "_" ++ operator ++ "/") := by
    simpa [persistedDirectory, String.append_assoc] using h1
  have hroot : R = root := string_append_right_cancel _ _ _ h3
  rw [← hroot] at h2
  exact hne h2

/-- C17: on the stop transition (stacking, both hands inactive, Predict or Output
mode) the session is finalised exactly when the skeleton collection holds strictly
more than the mode's threshold, 18 in Predict and 35 in Output. Above the threshold
`updateFrame` is `finalizeSession` followed by the clearing of the session, where
`finalizeSession` replaces the three collections by their `setStandard` results and,
if the size test on the standardised collections passes, calls `save` (with
`isSending` true in Predict and false in Output) on the standardised collections and
increments `recorded`. With at most the threshold, in particular exactly 18 samples
in Predict or exactly 35 in Output, the result is the cleared state alone: no
collection is standardised and nothing is exported, whatever `setStandard` would
return. `save` is called on this tick iff the length exceeds the threshold and the
size test on the standardised collections passes. -/
theorem stop_transition_threshold (e : Env) (s : Kinect)
    (hmode : s.mode = KINECT_MODE_PREDICT ∨ s.mode = KINECT_MODE_OUTPUT)
    (hstack : s.frameStacking = true)
    (hl : s.leftHandActivated = false) (hr : s.rightHandActivated = false) :
    ((if s.mode = KINECT_MODE_PREDICT then 18 else 35) < s.frameCollection.length →
      s.updateFrame e =
        { s.finalizeSession e with
          frameStacking := false
          frameCollection := []
          rhandCollection := []
          lhandCollection := [] } ∧
      (s.finalizeSession e).frameCollection =
        e.frameSetStandard s.recordStartTime s.frameCollection ∧
      (s.finalizeSession e).lhandCollection =
        e.lhandSetStandard s.recordStartTime s.lhandCollection ∧
      (s.finalizeSession e).rhandCollection =
        e.rhandSetStandard s.recordStartTime s.rhandCollection ∧
      (s.finalizeSession e).saveLog =
        (if (e.frameSetStandard s.recordStartTime s.frameCollection).length =
              e.FRAME_STANDARD_SIZE ∧
            (e.rhandSetStandard s.recordStartTime s.rhandCollection).length =
              e.IMAEG_STANDARD_FRAME_SIZE then
          s.saveLog ++
            [{ isSending := decide (s.mode = KINECT_MODE_PREDICT)
               label := s.label
               frames := e.frameSetStandard s.recordStartTime s.frameCollection
               lhand := e.lhandSetStandard s.recordStartTime s.lhandCollection
               rhand := e.rhandSetStandard s.recordStartTime s.rhandCollection }]
         else s.saveLog) ∧
      (s.finalizeSession e).recorded =
        (if (e.frameSetStandard s.recordStartTime s.frameCollection).length =
              e.FRAME_STANDARD_SIZE ∧
            (e.rhandSetStandard s.recordStartTime s.rhandCollection).length =
              e.IMAEG_STANDARD_FRAME_SIZE then
          s.recorded + 1
         else s.recorded)) ∧
    (s.frameCollection.length ≤ (if s.mode = KINECT_MODE_PREDICT then 18 else 35) →
      s.updateFrame e =
        { s with
          frameStacking := false
          frameCollection := []
          rhandCollection := []
          lhandCollection := [] } ∧
      (s.updateFrame e).saveLog = s.saveLog ∧
      (s.updateFrame e).recorded = s.recorded) ∧
    ((s.updateFrame e).saveLog ≠ s.saveLog ↔
      (if s.mode = KINECT_MODE_PREDICT then 18 else 35) < s.frameCollection.length ∧
      (e.frameSetStandard s.recordStartTime s.frameCollection).length =
        e.FRAME_STANDARD_SIZE ∧
      (e.rhandSetStandard s.recordStartTime s.rhandCollection).length =
        e.IMAEG_STANDARD_FRAME_SIZE) := by
  have hm : s.mode ≠ KINECT_MODE_IDLE := by
    rcases hmode with h | h <;> simp [h]
  have hthr : needStackedCnt s.mode = (if s.mode = KINECT_MODE_PREDICT then 18 else 35) := rfl
  have hstop := updateFrame_stop_eq e s hm hstack hl hr
  have hexp := updateFrame_stop_export e s hmode hstack hl hr
  rw [hthr] at hstop hexp
  refine ⟨?_, ?_, ?_⟩
  · intro hlt
    have hgt : s.frameCollection.length > (if s.mode = KINECT_MODE_PREDICT then 18 else 35) :=
      hlt
    refine ⟨by rw [hstop, if_pos hgt]; rfl, ?_, ?_, ?_, ?_, ?_⟩ <;>
      rcases hmode with h | h <;>
      by_cases hF : (e.frameSetStandard s.recordStartTime s.frameCollection).length =
        e.FRAME_STANDARD_SIZE <;>
      by_cases hR : (e.rhandSetStandard s.recordStartTime s.rhandCollection).length =
        e.IMAEG_STANDARD_FRAME_SIZE <;>
      simp [Kinect.finalizeSession, Kinect.standardize, Kinect.standardSizeCheck,
        Kinect.save, h, hF, hR]
  · intro hle
    have hnot : ¬ ((if s.mode = KINECT_MODE_PREDICT then 18 else 35) <
        s.frameCollection.length) := by omega
    rw [hexp, if_neg (fun h => hnot h.1)]
    exact ⟨rfl, rfl, rfl⟩
  · rw [hexp]
    by_cases hc : (if s.mode = KINECT_MODE_PREDICT then 18 else 35) <
          s.frameCollection.length ∧
        (e.frameSetStandard s.recordStartTime s.frameCollection).length =
          e.FRAME_STANDARD_SIZE ∧
        (e.rhandSetStandard s.recordStartTime s.rhandCollection).length =
          e.IMAEG_STANDARD_FRAME_SIZE
    · rw [if_pos hc]
      simp [hc]
    · rw [if_neg hc]
      simp [hc]

/-- Witness for C17: a session of exactly 18 samples in Predict mode, on the tick with
both hands down, is discarded. -/
theorem stop_transition_threshold_witness :
    (((startKinect KINECT_MODE_PREDICT).run sampleEnv (handUpFor 18)).sense
      (handsDown 18)).frameStacking = true ∧
    (((startKinect KINECT_MODE_PREDICT).run sampleEnv (handUpFor 18)).sense
      (handsDown 18)).frameCollection.length = 18 ∧
    ((((startKinect KINECT_MODE_PREDICT).run sampleEnv (handUpFor 18)).sense
      (handsDown 18)).updateFrame sampleEnv).saveLog =
      (((startKinect KINECT_MODE_PREDICT).run sampleEnv (handUpFor 18)).sense
        (handsDown 18)).saveLog ∧
    ((((startKinect KINECT_MODE_PREDICT).run sampleEnv (handUpFor 18)).sense
      (handsDown 18)).updateFrame sampleEnv).recorded =
      (((startKinect KINECT_MODE_PREDICT).run sampleEnv (handUpFor 18)).sense
        (handsDown 18)).recorded :=
  ⟨rfl, rfl,
    ((stop_transition_threshold sampleEnv
      (((startKinect KINECT_MODE_PREDICT).run sampleEnv (handUpFor 18)).sense (handsDown 18))
      (Or.inl rfl) rfl rfl rfl).2.1 (by decide)).2.1,
    ((stop_transition_threshold sampleEnv
      (((startKinect KINECT_MODE_PREDICT).run sampleEnv (handUpFor 18)).sense (handsDown 18))
      (Or.inl rfl) rfl rfl rfl).2.1 (by decide)).2.2⟩

/-- C18: from an idle recorder with three empty collections, after any history of
ticks (with arbitrary hand-activation flags) and `setMode` calls, the three
collections hold the same number of samples, that number is 0 when `frameStacking`
is false and at least 1 when it is true, the `recorded` counter is not below its
initial value, and any further event leaves it unchanged or adds exactly one. -/
theorem reachable_session_invariant (e : Env) (s0 : Kinect) (evs : List Event)
    (hidle : s0.frameStacking = false)
    (hF : s0.frameCollection = []) (hL : s0.lhandCollection = [])
    (hR : s0.rhandCollection = []) :
    (s0.runEvents e evs).lhandCollection.length =
      (s0.runEvents e evs).frameCollection.length ∧
    (s0.runEvents e evs).rhandCollection.length =
      (s0.runEvents e evs).frameCollection.length ∧
    ((s0.runEvents e evs).frameStacking = false →
      (s0.runEvents e evs).frameCollection.length = 0) ∧
    ((s0.runEvents e evs).frameStacking = true →
      1 ≤ (s0.runEvents e evs).frameCollection.length) ∧
    s0.recorded ≤ (s0.runEvents e evs).recorded ∧
    (∀ ev : Event,
      (s0.runEvents e evs).recorded ≤ ((s0.runEvents e evs).step e ev).recorded ∧
      ((s0.runEvents e evs).step e ev).recorded ≤ (s0.runEvents e evs).recorded + 1) := by
  obtain ⟨a1, a2, a3, a4, a5⟩ := runEvents_lengths e evs s0 (by simp [hL, hF]) (by simp [hR, hF])
    (fun _ => by rw [hF]; rfl) (fun h => by rw [hidle] at h; cases h)
  exact ⟨a1, a2, a3, a4, a5, fun ev => step_recorded e _ ev⟩

/-- Witness for C18: a session started in Output mode, frozen by a switch to Off mode,
then resumed in Predict mode. -/
theorem reachable_session_invariant_witness :
    ((startKinect KINECT_MODE_OUTPUT).runEvents sampleEnv
      [Event.tick (handUp 0), Event.setMode KINECT_MODE_IDLE, Event.tick (handsDown 1),
        Event.setMode KINECT_MODE_PREDICT, Event.tick (handUp 2)]).lhandCollection.length =
      ((startKinect KINECT_MODE_OUTPUT).runEvents sampleEnv
        [Event.tick (handUp 0), Event.setMode KINECT_MODE_IDLE, Event.tick (handsDown 1),
          Event.setMode KINECT_MODE_PREDICT, Event.tick (handUp 2)]).frameCollection.length ∧
    ((startKinect KINECT_MODE_OUTPUT).runEvents sampleEnv
      [Event.tick (handUp 0), Event.setMode KINECT_MODE_IDLE, Event.tick (handsDown 1),
        Event.setMode KINECT_MODE_PREDICT, Event.tick (handUp 2)]).frameCollection.length = 2 :=
  ⟨(reachable_session_invariant sampleEnv (startKinect KINECT_MODE_OUTPUT)
    [Event.tick (handUp 0), Event.setMode KINECT_MODE_IDLE, Event.tick (handsDown 1),
      Event.setMode KINECT_MODE_PREDICT, Event.tick (handUp 2)] rfl rfl rfl rfl).1, rfl⟩

/-- C19: `findLRHandPos` on the body at `trackingCount`. If its left-hand joint is not
tracked, the object is unchanged, so neither `lHandPos` nor `rHandPos` moves, whatever
the state of the right-hand joint. If the left-hand joint is tracked and the
right-hand joint is not, `lHandPos` becomes `lerp(lHandPos, left position)` and
`rHandPos` is unchanged. If both are tracked, each smoothed position becomes `lerp`
of its own previous value and its own joint position. -/
theorem findLRHandPos_cases (e : Env) (bodies : List Body) (s : Kinect) (body : Body)
    (hb : bodies[s.trackingCount]? = some body) :
    ((body.Joints e.HAND_RECORD_TYPE_L).TrackingState = TrackingState_NotTracked →
      s.findLRHandPos e bodies = some s) ∧
    ((body.Joints e.HAND_RECORD_TYPE_L).TrackingState ≠ TrackingState_NotTracked →
      (body.Joints e.HAND_RECORD_TYPE_R).TrackingState = TrackingState_NotTracked →
      s.findLRHandPos e bodies =
        some { s with
          lHandPos := Kinect.lerp e s.lHandPos (body.Joints e.HAND_RECORD_TYPE_L).Position }) ∧
    ((body.Joints e.HAND_RECORD_TYPE_L).TrackingState ≠ TrackingState_NotTracked →
      (body.Joints e.HAND_RECORD_TYPE_R).TrackingState ≠ TrackingState_NotTracked →
      s.findLRHandPos e bodies =
        some { s with
          lHandPos := Kinect.lerp e s.lHandPos (body.Joints e.HAND_RECORD_TYPE_L).Position
          rHandPos :=
            Kinect.lerp e s.rHandPos (body.Joints e.HAND_RECORD_TYPE_R).Position }) := by
  refine ⟨fun hl => ?_, fun hl hr => ?_, fun hl hr => ?_⟩
  · simp [Kinect.findLRHandPos, hb, hl]
  · simp [Kinect.findLRHandPos, hb, hl, hr]
  · simp [Kinect.findLRHandPos, hb, hl, hr]

/-- Witness for C19: the left-hand joint is not tracked, the right-hand joint is, and
nothing changes. -/
theorem findLRHandPos_cases_witness :
    [handsBody TrackingState_NotTracked TrackingState_Tracked][
      (startKinect KINECT_MODE_OUTPUT).trackingCount]? =
      some (handsBody TrackingState_NotTracked TrackingState_Tracked) ∧
    ((handsBody TrackingState_NotTracked TrackingState_Tracked).Joints
      sampleEnv.HAND_RECORD_TYPE_R).TrackingState = TrackingState_Tracked ∧
    (startKinect KINECT_MODE_OUTPUT).findLRHandPos sampleEnv
      [handsBody TrackingState_NotTracked TrackingState_Tracked] =
      some (startKinect KINECT_MODE_OUTPUT) :=
  ⟨rfl, rfl, (findLRHandPos_cases sampleEnv
    [handsBody TrackingState_NotTracked TrackingState_Tracked]
    (startKinect KINECT_MODE_OUTPUT)
    (handsBody TrackingState_NotTracked TrackingState_Tracked) rfl).1 rfl⟩

end KSL
